import Mathlib

/-!
Shallow embedding of the vendor-bill rate-variance reconciliation scripts:
the IR↔VB Suitelet, the IR↔VB scheduled script, and the PO↔VB Suitelet.
Rates and amounts are modelled as rationals, transaction dates as integers
(days since an arbitrary epoch), and platform record identifiers as strings.
JavaScript's stable Array.prototype.sort with the date comparator
(new Date(a) - new Date(b)) is modelled by stable insertion sort
(List.insertionSort), which computes the same result as any stable sort.
The platform's storage engine is external: record load/save calls are
modelled as explicit effect traces, and search results as input row lists.
-/

/-- Math.abs on the rational rate model. -/
def ratAbs (x : Rat) : Rat := if x < 0 then -x else x

namespace IRVB

/-- One Item Receipt line as collected into a PO-line group by groupByPOLine
(fields read from a raw search row, rates parsed to numbers). -/
structure IRLine where
  ir_id : String
  ir_number : String
  ir_date : Int
  ir_period_closed : Bool
  ir_line_id : String
  ir_quantity : Rat
  ir_rate : Rat
deriving DecidableEq, Repr

/-- One Vendor Bill line as collected into a PO-line group by groupByPOLine. -/
structure VBLine where
  vb_id : String
  vb_number : String
  vb_date : Int
  vb_line_id : String
  vb_quantity : Rat
  vb_rate : Rat
deriving DecidableEq, Repr

/-- Canonical PO-line information seeded from the first row of a group. -/
structure POInfo where
  po_id : String
  po_number : String
  po_date : Int
  vendor_name : String
  item_id : String
  item_number : String
  item_name : String
deriving DecidableEq, Repr

/-- One raw join row returned by searchIRVBVariances.  The source rows are
flat; here the same fields are bundled by document role. -/
structure Row where
  po_line_id : String
  poInfo : POInfo
  ir : IRLine
  vb : VBLine
deriving DecidableEq, Repr

/-- A PO-line group: canonical PO info plus the deduplicated Item Receipt
and Vendor Bill line lists. -/
structure Group where
  poInfo : POInfo
  itemReceipts : List IRLine
  vendorBills : List VBLine
deriving DecidableEq, Repr

/-- Appends an entry to a per-group document list unless an entry with the
same line-unique-key is already present (the some-based duplicate scan in
groupByPOLine). -/
def dedupAdd {α : Type} (key : α → String) (l : List α) (a : α) : List α :=
  if l.any (fun x => key x == key a) then l else l ++ [a]

/-- Processes one raw row against an existing group: the row's IR line and
VB line are each appended unless their line-unique-key is already present. -/
def addRow (g : Group) (row : Row) : Group :=
  { g with
    itemReceipts := dedupAdd IRLine.ir_line_id g.itemReceipts row.ir
    vendorBills := dedupAdd VBLine.vb_line_id g.vendorBills row.vb }

/-- A freshly seeded group, before the seeding row's IR/VB lines are added. -/
def newGroup (p : POInfo) : Group :=
  { poInfo := p, itemReceipts := [], vendorBills := [] }

/-- Inserts one row into the keyed group collection: on first sight of a
PO-line key a new group is seeded from that row, otherwise the existing
group is extended.  The JS object is modelled as an association list. -/
def insertRow (row : Row) : List (String × Group) → List (String × Group)
  | [] => [(row.po_line_id, addRow (newGroup row.poInfo) row)]
  | (k, g) :: rest =>
      if k = row.po_line_id then (k, addRow g row) :: rest
      else (k, g) :: insertRow row rest

/-- groupByPOLine: folds the raw rows into PO-line groups. -/
def groupByPOLine (rows : List Row) : List (String × Group) :=
  rows.foldl (fun gs row => insertRow row gs) []

/-- The date order used by the IR sort comparator. -/
def irDateLE (a b : IRLine) : Prop := a.ir_date ≤ b.ir_date

instance : DecidableRel irDateLE :=
  fun a b => inferInstanceAs (Decidable (a.ir_date ≤ b.ir_date))

instance : IsTotal IRLine irDateLE := ⟨fun a b => Int.le_total a.ir_date b.ir_date⟩

instance : IsTrans IRLine irDateLE := ⟨fun _ _ _ h1 h2 => le_trans h1 h2⟩

/-- The date order used by the VB sort comparator. -/
def vbDateLE (a b : VBLine) : Prop := a.vb_date ≤ b.vb_date

instance : DecidableRel vbDateLE :=
  fun a b => inferInstanceAs (Decidable (a.vb_date ≤ b.vb_date))

instance : IsTotal VBLine vbDateLE := ⟨fun a b => Int.le_total a.vb_date b.vb_date⟩

instance : IsTrans VBLine vbDateLE := ⟨fun _ _ _ h1 h2 => le_trans h1 h2⟩

/-- Stable ascending sort of IR lines by date (the in-place stable
Array.prototype.sort with comparator new Date(a.ir_date) -
new Date(b.ir_date), modelled by stable insertion sort). -/
def sortIRs (l : List IRLine) : List IRLine := List.insertionSort irDateLE l

/-- Stable ascending sort of VB lines by date. -/
def sortVBs (l : List VBLine) : List VBLine := List.insertionSort vbDateLE l

/-- An emitted IR↔VB variance pair: the pushed object carries all PO, IR and
VB fields of the matched lines. -/
structure Pair where
  poInfo : POInfo
  ir : IRLine
  vb : VBLine
deriving DecidableEq, Repr

/-- Pairs emitted for one group by createVariancePairs: both sides are
sorted ascending by date, index i of one side is matched with index i of
the other (the loop runs to the longer length but pushes only when both
sides have an entry, i.e. over the zip), and a pair is pushed only when
the absolute rate difference reaches the threshold.  The scheduled script
passes minVariance and defaults it with the falsy-or (minVariance || 0.01);
the Suitelet variant hard-codes 0.01, i.e. this function at 1/100. -/
def pairsForGroup (minVariance : Rat) (g : Group) : List Pair :=
  let threshold := if minVariance = 0 then 1/100 else minVariance
  ((sortIRs g.itemReceipts).zip (sortVBs g.vendorBills)).filterMap
    (fun iv =>
      if threshold ≤ ratAbs (iv.2.vb_rate - iv.1.ir_rate) then
        some { poInfo := g.poInfo, ir := iv.1, vb := iv.2 }
      else none)

/-- createVariancePairs: concatenation of every group's emitted pairs. -/
def createVariancePairs (minVariance : Rat) (gs : List (String × Group)) : List Pair :=
  gs.flatMap (fun kg => pairsForGroup minVariance kg.2)

/-- The grouping-then-pairing pipeline on raw rows. -/
def allPairs (minVariance : Rat) (rows : List Row) : List Pair :=
  createVariancePairs minVariance (groupByPOLine rows)

/-- The variance derived for a pair (buildVarianceTable and the emission
test): always the VB-side rate minus the IR-side rate. -/
def derivedVariance (p : Pair) : Rat := p.vb.vb_rate - p.ir.ir_rate

/-- Modelled from the spec words of claim C3 for comparison with the code:
the later-dated document's rate minus the earlier-dated document's rate. -/
def specLaterMinusEarlier (p : Pair) : Rat :=
  if p.ir.ir_date < p.vb.vb_date then p.vb.vb_rate - p.ir.ir_rate
  else p.ir.ir_rate - p.vb.vb_rate

end IRVB

namespace POVB

/-- Canonical PO-line information of a PO↔VB group (seeded from the first
row of the group; rates parsed to numbers). -/
structure POInfo where
  po_id : String
  po_number : String
  po_date : Int
  vendor_id : String
  vendor_name : String
  location_id : String
  location_name : String
  po_line_key : String
  item_id : String
  item_name : String
  po_rate : Rat
  po_quantity : Rat
deriving DecidableEq, Repr

/-- One Vendor Bill line collected into a PO↔VB group. -/
structure Bill where
  vb_id : String
  vb_number : String
  vb_date : Int
  vb_line_key : String
  vb_quantity : Rat
  vb_rate : Rat
deriving DecidableEq, Repr

/-- A PO-line group of the PO↔VB variant: PO info plus deduplicated VB lines. -/
structure Group where
  poInfo : POInfo
  vendorBills : List Bill
deriving DecidableEq, Repr

/-- The three externally configured percentage thresholds (each defaulting
to 2 when the script parameter is absent). -/
structure Thresholds where
  service : Rat
  kitchens : Rat
  appliances : Rat
deriving DecidableEq, Repr

/-- getThresholdForLocation: location 113 selects the service threshold,
location 17 the kitchens threshold, every other location the appliances
threshold. -/
def getThresholdForLocation (locationId : String) (thresholds : Thresholds) : Rat :=
  if locationId = "113" then thresholds.service
  else if locationId = "17" then thresholds.kitchens
  else thresholds.appliances

/-- Percent variance as computed in createVariancePairs and in
buildVarianceTable: variance / po_rate * 100 when po_rate is nonzero,
otherwise 0 (the po_rate !== 0 guard). -/
def variancePercent (po_rate variance : Rat) : Rat :=
  if po_rate ≠ 0 then variance / po_rate * 100 else 0

/-- The date order used by the PO↔VB bill sort comparator. -/
def billDateLE (a b : Bill) : Prop := a.vb_date ≤ b.vb_date

instance : DecidableRel billDateLE :=
  fun a b => inferInstanceAs (Decidable (a.vb_date ≤ b.vb_date))

instance : IsTotal Bill billDateLE := ⟨fun a b => Int.le_total a.vb_date b.vb_date⟩

instance : IsTrans Bill billDateLE := ⟨fun _ _ _ h1 h2 => le_trans h1 h2⟩

/-- Stable ascending sort of VB lines by date (stable insertion sort,
modelling the stable Array.prototype.sort). -/
def sortBills (l : List Bill) : List Bill := List.insertionSort billDateLE l

/-- An emitted PO↔VB variance pair: the PO line matched with its oldest VB. -/
structure Pair where
  poInfo : POInfo
  vb : Bill
deriving DecidableEq, Repr

/-- Pairs emitted for one group in the PO↔VB variant: the VB list is sorted
ascending by date, the PO line is matched only with the oldest VB, and the
pair is pushed only when the absolute dollar variance reaches 0.01 and the
absolute percent variance reaches the location's threshold. -/
def pairsForGroup (thresholds : Thresholds) (g : Group) : List Pair :=
  match sortBills g.vendorBills with
  | [] => []
  | vb :: _ =>
    let variance := vb.vb_rate - g.poInfo.po_rate
    let vp := variancePercent g.poInfo.po_rate variance
    let threshold := getThresholdForLocation g.poInfo.location_id thresholds
    if 1/100 ≤ ratAbs variance ∧ threshold ≤ ratAbs vp then
      [{ poInfo := g.poInfo, vb := vb }]
    else []

end POVB

namespace IRVB

/-- Batch size of the IR rate-correction handlePost: 5 records per batch. -/
def batchSize : Nat := 5

end IRVB

namespace POVB

/-- Batch size of the mark-reviewed handlePost: 10 records per batch. -/
def batchSize : Nat := 10

end POVB

namespace Batch

/-- The slice of the selection processed in one round of handlePost:
startIndex = batchIndex * batchSize, endIndex = min(startIndex + batchSize,
total), currentBatch = allUpdates.slice(startIndex, endIndex). -/
def window {α : Type} (batchSize : Nat) (allUpdates : List α) (batchIndex : Nat) : List α :=
  let startIndex := batchIndex * batchSize
  let endIndex := min (startIndex + batchSize) allUpdates.length
  (allUpdates.drop startIndex).take (endIndex - startIndex)

/-- Whether the round redirects to a continuation (endIndex <
allUpdates.length) rather than the terminal summary. -/
def continues {α : Type} (batchSize : Nat) (allUpdates : List α) (batchIndex : Nat) : Bool :=
  let startIndex := batchIndex * batchSize
  let endIndex := min (startIndex + batchSize) allUpdates.length
  decide (endIndex < allUpdates.length)

/-- The cumulative counters threaded through the continuation parameters
(success_count and error_count). -/
structure BState where
  success_count : Nat
  error_count : Nat
deriving DecidableEq, Repr

/-- One round of handlePost over the cumulative state: every item of the
current window is attempted; a per-item exception is caught and counted as
an error, a normal return as a success (the per-item try/catch).  The
external per-item mutation outcome is abstracted by proc. -/
def applyRound {α : Type} (batchSize : Nat) (proc : α → Bool) (allUpdates : List α)
    (batchIndex : Nat) (prev : BState) : BState :=
  let currentBatch := window batchSize allUpdates batchIndex
  { success_count := prev.success_count + currentBatch.countP proc
    error_count := prev.error_count + currentBatch.countP (fun u => !(proc u)) }

/-- The cumulative state after round i, starting from the empty state and
echoing each round's continuation state back unmodified. -/
def stateAfter {α : Type} (batchSize : Nat) (proc : α → Bool) (allUpdates : List α) :
    Nat → BState
  | 0 => applyRound batchSize proc allUpdates 0 { success_count := 0, error_count := 0 }
  | i + 1 => applyRound batchSize proc allUpdates (i + 1)
      (stateAfter batchSize proc allUpdates i)

end Batch

namespace Adj

/-- The data documented by the expense-line memo string (item, original VB
rate, IR rate, difference); the display formatting is abstracted away. -/
structure MemoInfo where
  itemName : String
  itemId : String
  origVbRate : Rat
  irRate : Rat
  diff : Rat
deriving DecidableEq, Repr

/-- One line of the Vendor Bill item sublist as read and written by the
closed-period adjustment (item, rate, department). -/
structure VBItemLine where
  item : String
  rate : Rat
  department : String
deriving DecidableEq, Repr

/-- One line of the Vendor Bill expense sublist. -/
structure VBExpenseLine where
  account : String
  amount : Rat
  memo : MemoInfo
deriving DecidableEq, Repr

/-- The loaded Vendor Bill: item sublist plus expense sublist.  The total
field is computed by the platform and is abstracted as a function of the
record (see handleClosedPeriodAdjustment). -/
structure VBRecord where
  itemLines : List VBItemLine
  expenseLines : List VBExpenseLine
deriving DecidableEq, Repr

/-- Step 2 of the procedure: scan the item sublist for the first line whose
item is truthy and matches the target item id (the loop breaks after the
first match), overwrite its rate with the IR rate, and capture that line's
department.  Yields none when no line matches (Item not found). -/
def updateFirstItemLine : List VBItemLine → String → Rat → Option (List VBItemLine × String)
  | [], _, _ => none
  | l :: ls, itemId, newRate =>
      if l.item ≠ "" ∧ l.item = itemId then
        some ({ l with rate := newRate } :: ls, l.department)
      else
        match updateFirstItemLine ls itemId newRate with
        | some (ls', dept) => some (l :: ls', dept)
        | none => none

/-- Step 4: the offsetting expense line appended at the end of the expense
sublist: account 112 (Accrued Purchases), amount = adjustment, and a memo
documenting item and rates. -/
def mkExpenseLine (itemName itemId : String) (vbRate irRate adjustmentAmount : Rat) :
    VBExpenseLine :=
  { account := "112", amount := adjustmentAmount
    memo := { itemName := itemName, itemId := itemId, origVbRate := vbRate
              irRate := irRate, diff := adjustmentAmount } }

/-- One Journal Entry line (account, optional debit, optional credit,
optional department). -/
structure JELine where
  account : String
  debit : Option Rat
  credit : Option Rat
  department : Option String
deriving DecidableEq, Repr

/-- The two-line Journal Entry created by step 7. -/
structure JERecord where
  line0 : JELine
  line1 : JELine
deriving DecidableEq, Repr

/-- COGS department mapping: departments 13 and 10 map to themselves,
everything else maps to 107. -/
def cogsDept (department : String) : String :=
  if department = "13" then "13" else if department = "10" then "10" else "107"

/-- Step 7: a positive adjustment credits Accrued Purchases (112) on line 0
and debits COGS (353) on line 1; otherwise the absolute amount is debited
to 112 and credited to 353.  The COGS line carries the mapped department. -/
def mkJournalEntry (adjustmentAmount : Rat) (department : String) : JERecord :=
  if adjustmentAmount > 0 then
    { line0 := { account := "112", debit := none, credit := some adjustmentAmount
                 department := none }
      line1 := { account := "353", debit := some adjustmentAmount, credit := none
                 department := some (cogsDept department) } }
  else
    { line0 := { account := "112", debit := some (ratAbs adjustmentAmount), credit := none
                 department := none }
      line1 := { account := "353", debit := none, credit := some (ratAbs adjustmentAmount)
                 department := some (cogsDept department) } }

/-- A call into the external document store that persists a record. -/
inductive Effect where
  | saveVB (rec : VBRecord)
  | saveJE (je : JERecord)
deriving DecidableEq, Repr

/-- handleClosedPeriodAdjustment after parameter parsing.  totalOf abstracts
the platform's computation of the vendor bill total field; it is read once
at load time (the invariant anchor) and re-read after the in-memory edits.
A throw before any save yields an error with an empty effect trace; the
success path saves the vendor bill and then the journal entry. -/
def handleClosedPeriodAdjustment (totalOf : VBRecord → Rat) (vbRecord : VBRecord)
    (itemId : String) (vbRate irRate : Rat) (itemName : String) :
    Except String Rat × List Effect :=
  let originalTotal := totalOf vbRecord
  match updateFirstItemLine vbRecord.itemLines itemId irRate with
  | none => (Except.error "Item not found on Vendor Bill", [])
  | some (newItemLines, department) =>
    let adjustmentAmount := vbRate - irRate
    let updated : VBRecord :=
      { itemLines := newItemLines
        expenseLines := vbRecord.expenseLines ++
          [mkExpenseLine itemName itemId vbRate irRate adjustmentAmount] }
    let newTotal := totalOf updated
    if ratAbs (newTotal - originalTotal) > 1/100 then
      (Except.error "VB total changed - adjustment cancelled", [])
    else
      (Except.ok adjustmentAmount,
        [Effect.saveVB updated, Effect.saveJE (mkJournalEntry adjustmentAmount department)])

end Adj

namespace Mut

/-- One Item Receipt line as scanned by updateItemReceiptLineRate. -/
structure IRLine where
  item : String
  rate : Rat
deriving DecidableEq, Repr

/-- updateItemReceiptLineRate on the loaded item sublist: every line whose
item is truthy and matches the target item id gets its rate overwritten
(the loop updates all instances), linesUpdated counts the matches; zero
matches throw before save, otherwise the mutated record is saved.  The
second component is the trace of save calls. -/
def updateItemReceiptLineRate (lines : List IRLine) (itemId : String) (newRate : Rat) :
    Except String (List IRLine) × List (List IRLine) :=
  let newLines := lines.map (fun l =>
    if l.item ≠ "" ∧ l.item = itemId then { l with rate := newRate } else l)
  let linesUpdated := lines.countP (fun l => decide (l.item ≠ "" ∧ l.item = itemId))
  if linesUpdated = 0 then (Except.error "No lines found with Item ID", [])
  else (Except.ok newLines, [newLines])

/-- One Purchase Order line as scanned by markPOLineReviewed. -/
structure POLine where
  lineuniquekey : String
  custcol_rate_variance_reviewed : Bool
deriving DecidableEq, Repr

/-- The scan of markPOLineReviewed: the reviewed flag is set on the first
line whose lineuniquekey is truthy and matches (the loop breaks after the
first match); none when no line matches. -/
def markFirstLine : List POLine → String → Option (List POLine)
  | [], _ => none
  | l :: ls, k =>
      if l.lineuniquekey ≠ "" ∧ l.lineuniquekey = k then
        some ({ l with custcol_rate_variance_reviewed := true } :: ls)
      else
        match markFirstLine ls k with
        | some ls' => some (l :: ls')
        | none => none

/-- markPOLineReviewed: a miss throws before save, a hit saves the mutated
record.  The second component is the trace of save calls. -/
def markPOLineReviewed (lines : List POLine) (poLineKey : String) :
    Except String (List POLine) × List (List POLine) :=
  match markFirstLine lines poLineKey with
  | none => (Except.error "No lines found with Line Key", [])
  | some newLines => (Except.ok newLines, [newLines])

end Mut

namespace Sched

/-- How one updateItemReceiptLineRate call ends, as observed by the
scheduled execute loop's try/catch. -/
inductive Outcome where
  | success
  | closedPeriod
  | failure
deriving DecidableEq, Repr

/-- One variance pair to process, abstracted to what the governance loop
observes: the operation units the update consumes and its outcome. -/
structure Item where
  cost : Nat
  outcome : Outcome
deriving DecidableEq, Repr

/-- A record pushed onto results.skipped. -/
structure SkippedRec where
  reason : String
  count : Nat
deriving DecidableEq, Repr

/-- The tallies accumulated by the scheduled execute. -/
structure SchedState where
  usage : Nat
  processed : Nat
  successCount : Nat
  closedPeriodCount : Nat
  errorCount : Nat
  skipped : List SkippedRec
deriving DecidableEq, Repr

/-- One iteration of the forEach in execute: the remaining operation
allowance is checked before the item; below 100 units the item is not
processed and a skipped record with the governance-limit reason and
count = total - processed is pushed (the early return skips only this
callback, so the check fires again for every later item); otherwise the
item is processed, consuming its cost and bumping the tally its outcome
selects. -/
def schedStep (total : Nat) (s : SchedState) (it : Item) : SchedState :=
  if s.usage < 100 then
    { s with skipped := s.skipped ++
        [{ reason := "Governance limit reached", count := total - s.processed }] }
  else
    let s1 := { s with processed := s.processed + 1, usage := s.usage - it.cost }
    match it.outcome with
    | Outcome.success => { s1 with successCount := s1.successCount + 1 }
    | Outcome.closedPeriod => { s1 with closedPeriodCount := s1.closedPeriodCount + 1 }
    | Outcome.failure => { s1 with errorCount := s1.errorCount + 1 }

/-- The zeroed results object, with the initial remaining usage. -/
def initialState (initialUsage : Nat) : SchedState :=
  { usage := initialUsage, processed := 0, successCount := 0
    closedPeriodCount := 0, errorCount := 0, skipped := [] }

/-- The execute loop over the variance pairs. -/
def runSched (items : List Item) (initialUsage : Nat) : SchedState :=
  items.foldl (schedStep items.length) (initialState initialUsage)

end Sched

namespace IRVB

/-- First-match lookup in the association-list model of the keyed group
object (property access groups[poLineKey]). -/
def lookupG (gs : List (String × Group)) (k : String) : Option Group :=
  match gs with
  | [] => none
  | (k2, g) :: rest => if k2 = k then some g else lookupG rest k

/-- The keys of the group collection in insertion order (Object.keys). -/
def keysG (gs : List (String × Group)) : List String := gs.map Prod.fst

/-- The raw rows carrying a given PO-line key, in arrival order. -/
def rowsWithKey (k : String) (rows : List Row) : List Row :=
  rows.filter (fun r => decide (r.po_line_id = k))

/-- Left fold of the keyed duplicate-skipping append, the shape in which a
group's document lists accumulate over its rows. -/
def dedupList {α : Type} (key : α → String) (init : List α) (l : List α) : List α :=
  l.foldl (dedupAdd key) init

end IRVB

namespace POVB

/-- The variance derived for a PO↔VB pair (the emission test in
createVariancePairs and the display column in buildVarianceTable): always
the VB-side rate minus the PO-side rate. -/
def derivedVariance (p : Pair) : Rat := p.vb.vb_rate - p.poInfo.po_rate

/-- Modelled from the spec words of claim C3 for comparison with the code:
the later-dated document's rate minus the earlier-dated document's rate,
for the PO↔VB pairing. -/
def specLaterMinusEarlier (p : Pair) : Rat :=
  if p.poInfo.po_date < p.vb.vb_date then p.vb.vb_rate - p.poInfo.po_rate
  else p.poInfo.po_rate - p.vb.vb_rate

end POVB

theorem Batch.window_length {α : Type} (s : Nat) (l : List α) (i : Nat) :
    (Batch.window s l i).length = min (i * s + s) l.length - i * s := by
  simp only [Batch.window, List.length_take, List.length_drop]
  omega

theorem Batch.countP_split {α : Type} (p : α → Bool) (l : List α) :
    l.countP p + l.countP (fun a => !(p a)) = l.length := by
  induction l with
  | nil => simp
  | cons a l ih =>
    by_cases h : p a <;> simp [List.countP_cons, h] <;> omega

theorem Batch.stateAfter_sum {α : Type} (s : Nat) (proc : α → Bool) (l : List α) :
    ∀ i : Nat, (Batch.stateAfter s proc l i).success_count
        + (Batch.stateAfter s proc l i).error_count = min ((i + 1) * s) l.length := by
  intro i
  induction i with
  | zero =>
    have hw := Batch.window_length s l 0
    have hc := Batch.countP_split proc (Batch.window s l 0)
    simp only [Batch.stateAfter, Batch.applyRound]
    simp only [Nat.zero_mul] at hw
    omega
  | succ i ih =>
    have hw := Batch.window_length s l (i + 1)
    have hc := Batch.countP_split proc (Batch.window s l (i + 1))
    have harith : (i + 1 + 1) * s = (i + 1) * s + s := by ring
    simp only [Batch.stateAfter, Batch.applyRound]
    omega

theorem Batch.window_getElem {α : Type} (s : Nat) (l : List α) (i j : Nat) :
    (Batch.window s l i)[j]? =
      if i * s + j < min (i * s + s) l.length then l[i * s + j]? else none := by
  simp only [Batch.window, List.getElem?_take, List.getElem?_drop]
  split_ifs with h1 h2 h3 <;> first | rfl | omega

/-- Claim C9: the percent-variance computation yields 0 when the PO rate is
0; the division branch is never taken for a zero denominator (and a
rational result is always a well-defined number), for any variance value. -/
theorem c9_percent_variance_zero :
    (∀ variance : Rat, POVB.variancePercent 0 variance = 0) ∧
    (∀ po_rate variance : Rat,
      POVB.variancePercent po_rate variance =
        if po_rate = 0 then 0 else variance / po_rate * 100) := by
  constructor
  · intro variance
    simp [POVB.variancePercent]
  · intro po_rate variance
    by_cases h : po_rate = 0 <;> simp [POVB.variancePercent, h]

/-- Claim C5: for a selection of n items, batch round i processes exactly
the window of indices from i*size up to min((i+1)*size, n), with size 5 in
the rate-correction variant and size 10 in the mark-reviewed variant; the
round continues iff the window's end index is strictly below n; a selection
of 12 with window 5 is processed as the rounds 0-5, 5-10, 10-12 with
completion decided on the third round. -/
theorem c5_batch_windowing :
    IRVB.batchSize = 5 ∧ POVB.batchSize = 10 ∧
    (∀ (α : Type) (updates : List α) (i j : Nat),
      (Batch.window IRVB.batchSize updates i).length
          = min (i * 5 + 5) updates.length - i * 5 ∧
      (Batch.window IRVB.batchSize updates i)[j]?
          = (if i * 5 + j < min (i * 5 + 5) updates.length
             then updates[i * 5 + j]? else none) ∧
      ((Batch.continues IRVB.batchSize updates i = true) ↔
          min (i * 5 + 5) updates.length < updates.length)) ∧
    (∀ (α : Type) (updates : List α) (i j : Nat),
      (Batch.window POVB.batchSize updates i).length
          = min (i * 10 + 10) updates.length - i * 10 ∧
      (Batch.window POVB.batchSize updates i)[j]?
          = (if i * 10 + j < min (i * 10 + 10) updates.length
             then updates[i * 10 + j]? else none) ∧
      ((Batch.continues POVB.batchSize updates i = true) ↔
          min (i * 10 + 10) updates.length < updates.length)) ∧
    (Batch.window 5 (List.range 12) 0 = [0, 1, 2, 3, 4] ∧
     Batch.window 5 (List.range 12) 1 = [5, 6, 7, 8, 9] ∧
     Batch.window 5 (List.range 12) 2 = [10, 11] ∧
     Batch.continues 5 (List.range 12) 0 = true ∧
     Batch.continues 5 (List.range 12) 1 = true ∧
     Batch.continues 5 (List.range 12) 2 = false) := by
  refine ⟨rfl, rfl, ?_, ?_, by decide⟩
  · intro α updates i j
    refine ⟨Batch.window_length 5 updates i, Batch.window_getElem 5 updates i j, ?_⟩
    simp [Batch.continues, IRVB.batchSize]
  · intro α updates i j
    refine ⟨Batch.window_length 10 updates i, Batch.window_getElem 10 updates i j, ?_⟩
    simp [Batch.continues, POVB.batchSize]

/-- Claim C10: in both Suitelet batch handlers every item of the current
window contributes to exactly one of the success count or the error count,
and (with the continuation state echoed back unmodified) after round i the
cumulative success_count + error_count equals min((i+1)*batchSize, total). -/
theorem c10_batch_counts :
    (∀ (α : Type) (proc : α → Bool) (updates : List α) (i : Nat),
      (Batch.window IRVB.batchSize updates i).countP proc
          + (Batch.window IRVB.batchSize updates i).countP (fun u => !(proc u))
        = (Batch.window IRVB.batchSize updates i).length ∧
      (Batch.stateAfter IRVB.batchSize proc updates i).success_count
          + (Batch.stateAfter IRVB.batchSize proc updates i).error_count
        = min ((i + 1) * IRVB.batchSize) updates.length) ∧
    (∀ (α : Type) (proc : α → Bool) (updates : List α) (i : Nat),
      (Batch.window POVB.batchSize updates i).countP proc
          + (Batch.window POVB.batchSize updates i).countP (fun u => !(proc u))
        = (Batch.window POVB.batchSize updates i).length ∧
      (Batch.stateAfter POVB.batchSize proc updates i).success_count
          + (Batch.stateAfter POVB.batchSize proc updates i).error_count
        = min ((i + 1) * POVB.batchSize) updates.length) := by
  constructor
  · intro α proc updates i
    exact ⟨Batch.countP_split proc _, Batch.stateAfter_sum IRVB.batchSize proc updates i⟩
  · intro α proc updates i
    exact ⟨Batch.countP_split proc _, Batch.stateAfter_sum POVB.batchSize proc updates i⟩

theorem Mut.markFirstLine_eq_none (lines : List Mut.POLine) (k : String) :
    Mut.markFirstLine lines k = none ↔
      ∀ l ∈ lines, ¬ (l.lineuniquekey ≠ "" ∧ l.lineuniquekey = k) := by
  induction lines with
  | nil => simp [Mut.markFirstLine]
  | cons l ls ih =>
    constructor
    · intro h0 l' hl'
      by_cases h : l.lineuniquekey ≠ "" ∧ l.lineuniquekey = k
      · exfalso
        simp only [Mut.markFirstLine, if_pos h] at h0
        exact Option.noConfusion h0
      · rcases List.mem_cons.mp hl' with rfl | hmem
        · exact h
        · simp only [Mut.markFirstLine, if_neg h] at h0
          cases hm : Mut.markFirstLine ls k with
          | none => exact (ih.mp hm) l' hmem
          | some ls2 =>
            rw [hm] at h0
            exact Option.noConfusion h0
    · intro hall
      have h : ¬ (l.lineuniquekey ≠ "" ∧ l.lineuniquekey = k) :=
        hall l (List.mem_cons_self l ls)
      have htail : Mut.markFirstLine ls k = none :=
        ih.mpr (fun l' hl' => hall l' (List.mem_cons_of_mem l hl'))
      simp only [Mut.markFirstLine, if_neg h, htail]

theorem Mut.map_eq_self_of_no_match {α : Type} (f : α → α) (l : List α)
    (h : ∀ a ∈ l, f a = a) : l.map f = l := by
  induction l with
  | nil => rfl
  | cons a as ih =>
    simp only [List.map_cons, h a (by simp)]
    rw [ih fun a ha => h a (by simp [ha])]

theorem Mut.markFirstLine_map (lines : List Mut.POLine) (k : String)
    (hnd : (lines.map Mut.POLine.lineuniquekey).Nodup)
    (res : List Mut.POLine) (h : Mut.markFirstLine lines k = some res) :
    res = lines.map (fun l =>
      if l.lineuniquekey ≠ "" ∧ l.lineuniquekey = k then
        { l with custcol_rate_variance_reviewed := true } else l) := by
  induction lines generalizing res with
  | nil => simp [Mut.markFirstLine] at h
  | cons l ls ih =>
    simp only [Mut.markFirstLine] at h
    by_cases hl : l.lineuniquekey ≠ "" ∧ l.lineuniquekey = k
    · rw [if_pos hl] at h
      injection h with h2
      subst h2
      simp only [List.map_cons, if_pos hl]
      have hno : ∀ l' ∈ ls, ¬ (l'.lineuniquekey ≠ "" ∧ l'.lineuniquekey = k) := by
        intro l' hl' hc
        simp only [List.map_cons, List.nodup_cons] at hnd
        apply hnd.1
        have hkey : l'.lineuniquekey = l.lineuniquekey := by rw [hc.2, hl.2]
        rw [← hkey]
        exact List.mem_map_of_mem _ hl'
      have hmap : ls.map (fun l' =>
          if l'.lineuniquekey ≠ "" ∧ l'.lineuniquekey = k then
            { l' with custcol_rate_variance_reviewed := true } else l') = ls :=
        Mut.map_eq_self_of_no_match _ ls (fun a ha => if_neg (hno a ha))
      rw [hmap]
    · rw [if_neg hl] at h
      cases hm : Mut.markFirstLine ls k with
      | none =>
        rw [hm] at h
        exact Option.noConfusion h
      | some ls2 =>
        rw [hm] at h
        injection h with h2
        subst h2
        simp only [List.map_cons, if_neg hl]
        have hndtail : (ls.map Mut.POLine.lineuniquekey).Nodup := by
          simp only [List.map_cons, List.nodup_cons] at hnd
          exact hnd.2
        rw [← ih hndtail ls2 hm]

/-- Claim C7: the Record Mutator overwrites the target field on every line
whose item (updateItemReceiptLineRate) or line-unique-key
(markPOLineReviewed, whose line keys are unique per document) matches the
given match value, leaves other lines unchanged, throws its not-found error
iff zero lines matched, and never calls save when that error is thrown. -/
theorem c7_record_mutator :
    (∀ (lines : List Mut.IRLine) (itemId : String) (newRate : Rat),
      (((Mut.updateItemReceiptLineRate lines itemId newRate).1
          = Except.error "No lines found with Item ID") ↔
        (∀ l ∈ lines, ¬ (l.item ≠ "" ∧ l.item = itemId))) ∧
      (((Mut.updateItemReceiptLineRate lines itemId newRate).2 = []) ↔
        (∀ l ∈ lines, ¬ (l.item ≠ "" ∧ l.item = itemId))) ∧
      (∀ res : List Mut.IRLine,
        (Mut.updateItemReceiptLineRate lines itemId newRate).1 = Except.ok res →
        ∀ j : Nat, res[j]? = (lines[j]?).map (fun l =>
          if l.item ≠ "" ∧ l.item = itemId then { l with rate := newRate } else l))) ∧
    (∀ (po : List Mut.POLine) (k : String),
      (((Mut.markPOLineReviewed po k).1 = Except.error "No lines found with Line Key") ↔
        (∀ l ∈ po, ¬ (l.lineuniquekey ≠ "" ∧ l.lineuniquekey = k))) ∧
      (((Mut.markPOLineReviewed po k).2 = []) ↔
        (∀ l ∈ po, ¬ (l.lineuniquekey ≠ "" ∧ l.lineuniquekey = k))) ∧
      ((po.map Mut.POLine.lineuniquekey).Nodup →
        ∀ res : List Mut.POLine,
        (Mut.markPOLineReviewed po k).1 = Except.ok res →
        ∀ j : Nat, res[j]? = (po[j]?).map (fun l =>
          if l.lineuniquekey ≠ "" ∧ l.lineuniquekey = k then
            { l with custcol_rate_variance_reviewed := true } else l))) := by
  constructor
  · intro lines itemId newRate
    have hiff : lines.countP (fun l => decide (l.item ≠ "" ∧ l.item = itemId)) = 0 ↔
        ∀ l ∈ lines, ¬ (l.item ≠ "" ∧ l.item = itemId) := by
      rw [List.countP_eq_zero]
      simp
    refine ⟨?_, ?_, ?_⟩
    · simp only [Mut.updateItemReceiptLineRate]
      by_cases hc : lines.countP (fun l => decide (l.item ≠ "" ∧ l.item = itemId)) = 0
      · rw [if_pos hc]
        exact iff_of_true rfl (hiff.mp hc)
      · rw [if_neg hc]
        exact iff_of_false (by simp) (fun hall => hc (hiff.mpr hall))
    · simp only [Mut.updateItemReceiptLineRate]
      by_cases hc : lines.countP (fun l => decide (l.item ≠ "" ∧ l.item = itemId)) = 0
      · rw [if_pos hc]
        exact iff_of_true rfl (hiff.mp hc)
      · rw [if_neg hc]
        exact iff_of_false (by simp) (fun hall => hc (hiff.mpr hall))
    · intro res hres j
      simp only [Mut.updateItemReceiptLineRate] at hres
      by_cases hc : lines.countP (fun l => decide (l.item ≠ "" ∧ l.item = itemId)) = 0
      · rw [if_pos hc] at hres
        exact Except.noConfusion hres
      · rw [if_neg hc] at hres
        injection hres with h2
        subst h2
        simp [List.getElem?_map]
  · intro po k
    refine ⟨?_, ?_, ?_⟩
    · rw [← Mut.markFirstLine_eq_none]
      cases hm : Mut.markFirstLine po k with
      | none => simp [Mut.markPOLineReviewed, hm]
      | some newLines =>
        simp only [Mut.markPOLineReviewed, hm]
        exact iff_of_false (by simp) (by simp)
    · rw [← Mut.markFirstLine_eq_none]
      cases hm : Mut.markFirstLine po k with
      | none => simp [Mut.markPOLineReviewed, hm]
      | some newLines =>
        simp only [Mut.markPOLineReviewed, hm]
        exact iff_of_false (by simp) (by simp)
    · intro hnd res hres j
      cases hm : Mut.markFirstLine po k with
      | none =>
        simp only [Mut.markPOLineReviewed, hm] at hres
        exact Except.noConfusion hres
      | some newLines =>
        simp only [Mut.markPOLineReviewed, hm] at hres
        injection hres with h2
        subst h2
        rw [Mut.markFirstLine_map po k hnd newLines hm]
        simp [List.getElem?_map]

/-- Witness for claim C7 at a one-line Purchase Order whose unique line key
matches the requested key. -/
theorem c7_witness :
    (([{ lineuniquekey := "77", custcol_rate_variance_reviewed := false }] :
        List Mut.POLine).map Mut.POLine.lineuniquekey).Nodup ∧
    (Mut.markPOLineReviewed
        [{ lineuniquekey := "77", custcol_rate_variance_reviewed := false }] "77").1
      = Except.ok [{ lineuniquekey := "77", custcol_rate_variance_reviewed := true }] ∧
    ([({ lineuniquekey := "77", custcol_rate_variance_reviewed := true } : Mut.POLine)])[0]?
      = (([({ lineuniquekey := "77", custcol_rate_variance_reviewed := false } :
          Mut.POLine)])[0]?).map (fun l =>
        if l.lineuniquekey ≠ "" ∧ l.lineuniquekey = "77" then
          { l with custcol_rate_variance_reviewed := true } else l) :=
  ⟨by decide, by rfl,
    (c7_record_mutator.2
      [{ lineuniquekey := "77", custcol_rate_variance_reviewed := false }] "77").2.2
      (by decide)
      [{ lineuniquekey := "77", custcol_rate_variance_reviewed := true }]
      (by rfl) 0⟩

/-- Claim C1: in the Closed-Period Adjustment Procedure, once the item
line's rate has been overwritten and the offsetting expense line appended
in memory, a re-read Vendor Bill total differing from the load-time anchor
by more than 0.01 aborts the whole procedure with an error: no Vendor Bill
save and no Journal Entry save happens (empty effect trace). -/
theorem c1_closed_period_invariance_abort
    (totalOf : Adj.VBRecord → Rat) (vbRecord : Adj.VBRecord)
    (itemId : String) (vbRate irRate : Rat) (itemName : String)
    (newItemLines : List Adj.VBItemLine) (department : String)
    (hfound : Adj.updateFirstItemLine vbRecord.itemLines itemId irRate
        = some (newItemLines, department))
    (hdrift : ratAbs (totalOf
        { itemLines := newItemLines,
          expenseLines := vbRecord.expenseLines ++
            [Adj.mkExpenseLine itemName itemId vbRate irRate (vbRate - irRate)] }
        - totalOf vbRecord) > 1 / 100) :
    Adj.handleClosedPeriodAdjustment totalOf vbRecord itemId vbRate irRate itemName
      = (Except.error "VB total changed - adjustment cancelled", []) := by
  simp only [Adj.handleClosedPeriodAdjustment, hfound]
  rw [if_pos hdrift]

/-- Witness for claim C1: a vendor bill whose single item line carries rate
105 while the submitted vb_rate is 105.02, so the rate edit changes the
total by -5 while the appended expense line adds +5.02, a drift of 0.02. -/
theorem c1_witness :
    Adj.updateFirstItemLine
        [{ item := "7", rate := 105, department := "13" }] "7" 100
      = some ([{ item := "7", rate := 100, department := "13" }], "13") ∧
    ratAbs ((fun r : Adj.VBRecord =>
        (r.itemLines.map Adj.VBItemLine.rate).sum
          + (r.expenseLines.map Adj.VBExpenseLine.amount).sum)
        { itemLines := [{ item := "7", rate := 100, department := "13" }],
          expenseLines := ([] : List Adj.VBExpenseLine) ++
            [Adj.mkExpenseLine "Widget" "7" (5251/50) 100 (5251/50 - 100)] }
      - (fun r : Adj.VBRecord =>
        (r.itemLines.map Adj.VBItemLine.rate).sum
          + (r.expenseLines.map Adj.VBExpenseLine.amount).sum)
        { itemLines := [{ item := "7", rate := 105, department := "13" }],
          expenseLines := [] }) > 1 / 100 ∧
    Adj.handleClosedPeriodAdjustment
        (fun r : Adj.VBRecord =>
          (r.itemLines.map Adj.VBItemLine.rate).sum
            + (r.expenseLines.map Adj.VBExpenseLine.amount).sum)
        { itemLines := [{ item := "7", rate := 105, department := "13" }],
          expenseLines := [] } "7" (5251/50) 100 "Widget"
      = (Except.error "VB total changed - adjustment cancelled", []) :=
  ⟨by rfl,
    by norm_num [Adj.mkExpenseLine, ratAbs],
    c1_closed_period_invariance_abort _ _ "7" (5251/50) 100 "Widget"
      [{ item := "7", rate := 100, department := "13" }] "13"
      (by rfl) (by norm_num [Adj.mkExpenseLine, ratAbs])⟩

/-- Claim C4: in the scheduled variant the remaining operation allowance is
checked before each item; from any state already below 100 units no further
item is processed or mutated (all tallies other than skipped are unchanged)
and every remaining item is recorded as skipped with the governance-limit
reason; globally, processed plus skipped-records always accounts for every
item, so none is silently dropped. -/
theorem c4_governance_stop :
    (∀ (total : Nat) (items : List Sched.Item) (s : Sched.SchedState),
      s.usage < 100 →
        items.foldl (Sched.schedStep total) s
          = { s with skipped := s.skipped ++ items.map (fun _ =>
              { reason := "Governance limit reached", count := total - s.processed }) }) ∧
    (∀ (items : List Sched.Item) (initialUsage : Nat),
      (Sched.runSched items initialUsage).processed
          + (Sched.runSched items initialUsage).skipped.length = items.length) := by
  constructor
  · intro total items
    induction items with
    | nil => intro s _; simp
    | cons it its ih =>
      intro s h
      have e1 : Sched.schedStep total s it
          = { s with skipped := s.skipped ++
              [{ reason := "Governance limit reached", count := total - s.processed }] } := by
        simp only [Sched.schedStep, if_pos h]
      have e2 := ih { s with skipped := s.skipped ++
          [{ reason := "Governance limit reached", count := total - s.processed }] } h
      rw [List.foldl_cons, e1, e2]
      simp [List.append_assoc]
  · intro items initialUsage
    have H : ∀ (total : Nat) (l : List Sched.Item) (s : Sched.SchedState),
        (l.foldl (Sched.schedStep total) s).processed
            + (l.foldl (Sched.schedStep total) s).skipped.length
          = s.processed + s.skipped.length + l.length := by
      intro total l
      induction l with
      | nil => intro s; simp
      | cons it its ih =>
        intro s
        rw [List.foldl_cons, ih]
        by_cases h : s.usage < 100
        · simp only [Sched.schedStep, if_pos h]
          simp
          omega
        · simp only [Sched.schedStep, if_neg h]
          cases it.outcome <;> simp <;> omega
    have h2 := H items.length items (Sched.initialState initialUsage)
    simpa [Sched.runSched, Sched.initialState] using h2

/-- Witness for claim C4: with 50 units remaining (below the 100-unit
margin) a one-item list is entirely skipped with a governance record. -/
theorem c4_witness :
    (Sched.initialState 50).usage < 100 ∧
    [({ cost := 1, outcome := Sched.Outcome.success } : Sched.Item)].foldl
        (Sched.schedStep 1) (Sched.initialState 50)
      = { Sched.initialState 50 with
          skipped := (Sched.initialState 50).skipped ++
            [({ cost := 1, outcome := Sched.Outcome.success } : Sched.Item)].map
              (fun _ => { reason := "Governance limit reached",
                          count := 1 - (Sched.initialState 50).processed }) } :=
  ⟨by decide, c4_governance_stop.1 1 _ _ (by decide)⟩

theorem IRVB.length_filterMap_if {α β : Type} (p : α → Prop) [DecidablePred p]
    (f : α → β) (l : List α) :
    (l.filterMap (fun a => if p a then some (f a) else none)).length
      = l.countP (fun a => decide (p a)) := by
  induction l with
  | nil => rfl
  | cons a as ih =>
    by_cases h : p a <;> simp [List.filterMap_cons, h, List.countP_cons, ih]

/-- Claim C2 counterexample: a PO-line group with 2 deduplicated IR lines
and 3 deduplicated VB lines (every raw row behind it carries a nonzero
row-level rate difference) whose second positional pair has equal rates, so
only 1 pair is emitted although min(2,3) = 2. -/
theorem c2_counterexample :
    (IRVB.pairsForGroup (1/100)
      { poInfo := { po_id := "1", po_number := "PO1", po_date := 0, vendor_name := "V",
                    item_id := "9", item_number := "N", item_name := "I" },
        itemReceipts :=
          [{ ir_id := "IRA", ir_number := "RA", ir_date := 0, ir_period_closed := false,
             ir_line_id := "a", ir_quantity := 1, ir_rate := 5 },
           { ir_id := "IRB", ir_number := "RB", ir_date := 1, ir_period_closed := false,
             ir_line_id := "b", ir_quantity := 1, ir_rate := 10 }],
        vendorBills :=
          [{ vb_id := "VBY", vb_number := "BY", vb_date := 1, vb_line_id := "y",
             vb_quantity := 1, vb_rate := 10 },
           { vb_id := "VBX", vb_number := "BX", vb_date := 0, vb_line_id := "x",
             vb_quantity := 1, vb_rate := 12 },
           { vb_id := "VBZ", vb_number := "BZ", vb_date := 2, vb_line_id := "z",
             vb_quantity := 1, vb_rate := 7 }] }).length = 1 ∧
    (1 : Nat) ≠ min 2 3 := by
  constructor
  · norm_num [IRVB.pairsForGroup, IRVB.sortIRs, IRVB.sortVBs, List.insertionSort,
      List.orderedInsert, IRVB.irDateLE, IRVB.vbDateLE, ratAbs,
      List.filterMap_cons, List.filterMap_nil]
  · decide

/-- Claim C2 as amended: for every PO-line group, positional
oldest-to-oldest pairing emits exactly those positions i < min(k, m) of the
date-sorted sides whose rate difference meets the threshold (in particular
at most min(k, m) pairs, with exactly min(k, m) only when every matched
position meets the $0.01 floor); unmatched leftovers on the longer side
never produce a pair. -/
theorem c2_positional_pairs_count (minVariance : Rat) (g : IRVB.Group) :
    ((IRVB.pairsForGroup minVariance g).length =
      ((IRVB.sortIRs g.itemReceipts).zip (IRVB.sortVBs g.vendorBills)).countP
        (fun iv => decide ((if minVariance = 0 then 1/100 else minVariance)
          ≤ ratAbs (iv.2.vb_rate - iv.1.ir_rate)))) ∧
    (IRVB.pairsForGroup minVariance g).length
      ≤ min g.itemReceipts.length g.vendorBills.length ∧
    (∀ p ∈ IRVB.pairsForGroup minVariance g, ∃ i : Nat,
      i < min g.itemReceipts.length g.vendorBills.length ∧
      (IRVB.sortIRs g.itemReceipts)[i]? = some p.ir ∧
      (IRVB.sortVBs g.vendorBills)[i]? = some p.vb ∧
      (if minVariance = 0 then 1/100 else minVariance)
        ≤ ratAbs (p.vb.vb_rate - p.ir.ir_rate)) := by
  have hlen : ((IRVB.sortIRs g.itemReceipts).zip (IRVB.sortVBs g.vendorBills)).length
      = min g.itemReceipts.length g.vendorBills.length := by
    simp [List.length_zip, IRVB.sortIRs, IRVB.sortVBs, List.length_insertionSort]
  have hcount : (IRVB.pairsForGroup minVariance g).length =
      ((IRVB.sortIRs g.itemReceipts).zip (IRVB.sortVBs g.vendorBills)).countP
        (fun iv => decide ((if minVariance = 0 then 1/100 else minVariance)
          ≤ ratAbs (iv.2.vb_rate - iv.1.ir_rate))) := by
    simp only [IRVB.pairsForGroup]
    exact IRVB.length_filterMap_if _ _ _
  refine ⟨hcount, ?_, ?_⟩
  · rw [hcount, ← hlen]
    exact List.countP_le_length _
  · intro p hp
    simp only [IRVB.pairsForGroup, List.mem_filterMap] at hp
    obtain ⟨iv, hiv, heq⟩ := hp
    by_cases hc : (if minVariance = 0 then 1/100 else minVariance)
        ≤ ratAbs (iv.2.vb_rate - iv.1.ir_rate)
    · rw [if_pos hc] at heq
      injection heq with h2
      subst h2
      obtain ⟨i, hi⟩ := List.mem_iff_getElem?.mp hiv
      refine ⟨i, ?_, ?_, ?_, hc⟩
      · have := List.getElem?_eq_some.mp hi
        rw [← hlen]
        exact this.1
      · exact (List.getElem?_zip_eq_some.mp hi).1
      · exact (List.getElem?_zip_eq_some.mp hi).2
    · rw [if_neg hc] at heq
      exact Option.noConfusion heq

/-- Witness for claim C2 at a one-IR / one-VB group whose single positional
pair clears the $0.01 floor and is emitted. -/
theorem c2_witness :
    (({ poInfo := { po_id := "1", po_number := "PO1", po_date := 0, vendor_name := "V",
                    item_id := "9", item_number := "N", item_name := "I" },
        ir := { ir_id := "IRA", ir_number := "RA", ir_date := 0, ir_period_closed := false,
                ir_line_id := "a", ir_quantity := 1, ir_rate := 10 },
        vb := { vb_id := "VBX", vb_number := "BX", vb_date := 0, vb_line_id := "x",
                vb_quantity := 1, vb_rate := 12 } } : IRVB.Pair) ∈
      IRVB.pairsForGroup (1/100)
        { poInfo := { po_id := "1", po_number := "PO1", po_date := 0, vendor_name := "V",
                      item_id := "9", item_number := "N", item_name := "I" },
          itemReceipts :=
            [{ ir_id := "IRA", ir_number := "RA", ir_date := 0, ir_period_closed := false,
               ir_line_id := "a", ir_quantity := 1, ir_rate := 10 }],
          vendorBills :=
            [{ vb_id := "VBX", vb_number := "BX", vb_date := 0, vb_line_id := "x",
               vb_quantity := 1, vb_rate := 12 }] }) ∧
    (∃ i : Nat,
      i < min
        ([{ ir_id := "IRA", ir_number := "RA", ir_date := 0, ir_period_closed := false,
            ir_line_id := "a", ir_quantity := 1, ir_rate := 10 }] : List IRVB.IRLine).length
        ([{ vb_id := "VBX", vb_number := "BX", vb_date := 0, vb_line_id := "x",
            vb_quantity := 1, vb_rate := 12 }] : List IRVB.VBLine).length ∧
      (IRVB.sortIRs
        [{ ir_id := "IRA", ir_number := "RA", ir_date := 0, ir_period_closed := false,
           ir_line_id := "a", ir_quantity := 1, ir_rate := 10 }])[i]?
        = some { ir_id := "IRA", ir_number := "RA", ir_date := 0, ir_period_closed := false,
                 ir_line_id := "a", ir_quantity := 1, ir_rate := 10 } ∧
      (IRVB.sortVBs
        [{ vb_id := "VBX", vb_number := "BX", vb_date := 0, vb_line_id := "x",
           vb_quantity := 1, vb_rate := 12 }])[i]?
        = some { vb_id := "VBX", vb_number := "BX", vb_date := 0, vb_line_id := "x",
                 vb_quantity := 1, vb_rate := 12 } ∧
      (if (1/100 : Rat) = 0 then 1/100 else 1/100) ≤ ratAbs ((12 : Rat) - 10)) := by
  have heval : IRVB.pairsForGroup (1/100)
      { poInfo := { po_id := "1", po_number := "PO1", po_date := 0, vendor_name := "V",
                    item_id := "9", item_number := "N", item_name := "I" },
        itemReceipts :=
          [{ ir_id := "IRA", ir_number := "RA", ir_date := 0, ir_period_closed := false,
             ir_line_id := "a", ir_quantity := 1, ir_rate := 10 }],
        vendorBills :=
          [{ vb_id := "VBX", vb_number := "BX", vb_date := 0, vb_line_id := "x",
             vb_quantity := 1, vb_rate := 12 }] }
      = [{ poInfo := { po_id := "1", po_number := "PO1", po_date := 0, vendor_name := "V",
                       item_id := "9", item_number := "N", item_name := "I" },
           ir := { ir_id := "IRA", ir_number := "RA", ir_date := 0, ir_period_closed := false,
                   ir_line_id := "a", ir_quantity := 1, ir_rate := 10 },
           vb := { vb_id := "VBX", vb_number := "BX", vb_date := 0, vb_line_id := "x",
                   vb_quantity := 1, vb_rate := 12 } }] := by
    norm_num [IRVB.pairsForGroup, IRVB.sortIRs, IRVB.sortVBs, List.insertionSort,
      List.orderedInsert, ratAbs, List.filterMap_cons, List.filterMap_nil]
  have hmem := heval ▸ List.mem_singleton_self
    ({ poInfo := { po_id := "1", po_number := "PO1", po_date := 0, vendor_name := "V",
                   item_id := "9", item_number := "N", item_name := "I" },
       ir := { ir_id := "IRA", ir_number := "RA", ir_date := 0, ir_period_closed := false,
               ir_line_id := "a", ir_quantity := 1, ir_rate := 10 },
       vb := { vb_id := "VBX", vb_number := "BX", vb_date := 0, vb_line_id := "x",
               vb_quantity := 1, vb_rate := 12 } } : IRVB.Pair)
  exact ⟨hmem, (c2_positional_pairs_count (1/100) _).2.2 _ hmem⟩

/-- Claim C3 counterexample: in the IR↔VB variant an emitted pair whose IR
is dated after its VB has derived variance vb_rate - ir_rate = 2 while the
later-dated document's rate minus the earlier-dated one's is 10 - 12 = -2;
in the PO↔VB variant an emitted pair whose PO is dated after its VB has
derived variance vb_rate - po_rate = 2 while later-minus-earlier is -2. -/
theorem c3_counterexample :
    IRVB.pairsForGroup (1/100)
      { poInfo := { po_id := "1", po_number := "PO1", po_date := 0, vendor_name := "V",
                    item_id := "9", item_number := "N", item_name := "I" },
        itemReceipts :=
          [{ ir_id := "IRA", ir_number := "RA", ir_date := 2, ir_period_closed := false,
             ir_line_id := "a", ir_quantity := 1, ir_rate := 10 }],
        vendorBills :=
          [{ vb_id := "VBX", vb_number := "BX", vb_date := 1, vb_line_id := "x",
             vb_quantity := 1, vb_rate := 12 }] }
      = [{ poInfo := { po_id := "1", po_number := "PO1", po_date := 0, vendor_name := "V",
                       item_id := "9", item_number := "N", item_name := "I" },
           ir := { ir_id := "IRA", ir_number := "RA", ir_date := 2, ir_period_closed := false,
                   ir_line_id := "a", ir_quantity := 1, ir_rate := 10 },
           vb := { vb_id := "VBX", vb_number := "BX", vb_date := 1, vb_line_id := "x",
                   vb_quantity := 1, vb_rate := 12 } }] ∧
    IRVB.derivedVariance
      { poInfo := { po_id := "1", po_number := "PO1", po_date := 0, vendor_name := "V",
                    item_id := "9", item_number := "N", item_name := "I" },
        ir := { ir_id := "IRA", ir_number := "RA", ir_date := 2, ir_period_closed := false,
                ir_line_id := "a", ir_quantity := 1, ir_rate := 10 },
        vb := { vb_id := "VBX", vb_number := "BX", vb_date := 1, vb_line_id := "x",
                vb_quantity := 1, vb_rate := 12 } } = 2 ∧
    IRVB.specLaterMinusEarlier
      { poInfo := { po_id := "1", po_number := "PO1", po_date := 0, vendor_name := "V",
                    item_id := "9", item_number := "N", item_name := "I" },
        ir := { ir_id := "IRA", ir_number := "RA", ir_date := 2, ir_period_closed := false,
                ir_line_id := "a", ir_quantity := 1, ir_rate := 10 },
        vb := { vb_id := "VBX", vb_number := "BX", vb_date := 1, vb_line_id := "x",
                vb_quantity := 1, vb_rate := 12 } } = -2 ∧
    POVB.pairsForGroup { service := 2, kitchens := 2, appliances := 2 }
      { poInfo := { po_id := "1", po_number := "PO1", po_date := 2, vendor_id := "20",
                    vendor_name := "V", location_id := "55", location_name := "L",
                    po_line_key := "k1", item_id := "9", item_name := "I",
                    po_rate := 10, po_quantity := 1 },
        vendorBills := [{ vb_id := "VB1", vb_number := "B1", vb_date := 1,
                          vb_line_key := "x", vb_quantity := 1, vb_rate := 12 }] }
      = [{ poInfo := { po_id := "1", po_number := "PO1", po_date := 2, vendor_id := "20",
                       vendor_name := "V", location_id := "55", location_name := "L",
                       po_line_key := "k1", item_id := "9", item_name := "I",
                       po_rate := 10, po_quantity := 1 },
           vb := { vb_id := "VB1", vb_number := "B1", vb_date := 1,
                   vb_line_key := "x", vb_quantity := 1, vb_rate := 12 } }] ∧
    POVB.derivedVariance
      { poInfo := { po_id := "1", po_number := "PO1", po_date := 2, vendor_id := "20",
                    vendor_name := "V", location_id := "55", location_name := "L",
                    po_line_key := "k1", item_id := "9", item_name := "I",
                    po_rate := 10, po_quantity := 1 },
        vb := { vb_id := "VB1", vb_number := "B1", vb_date := 1,
                vb_line_key := "x", vb_quantity := 1, vb_rate := 12 } } = 2 ∧
    POVB.specLaterMinusEarlier
      { poInfo := { po_id := "1", po_number := "PO1", po_date := 2, vendor_id := "20",
                    vendor_name := "V", location_id := "55", location_name := "L",
                    po_line_key := "k1", item_id := "9", item_name := "I",
                    po_rate := 10, po_quantity := 1 },
        vb := { vb_id := "VB1", vb_number := "B1", vb_date := 1,
                vb_line_key := "x", vb_quantity := 1, vb_rate := 12 } } = -2 := by
  refine ⟨?_, ?_, ?_, ?_, ?_, ?_⟩
  · norm_num [IRVB.pairsForGroup, IRVB.sortIRs, IRVB.sortVBs, List.insertionSort,
      List.orderedInsert, ratAbs, List.filterMap_cons, List.filterMap_nil]
  · norm_num [IRVB.derivedVariance]
  · norm_num [IRVB.specLaterMinusEarlier]
  · norm_num [POVB.pairsForGroup, POVB.sortBills, List.insertionSort, List.orderedInsert,
      POVB.getThresholdForLocation, POVB.variancePercent, ratAbs]
  · norm_num [POVB.derivedVariance]
  · norm_num [POVB.specLaterMinusEarlier]

/-- Claim C3 as amended, covering both variants: the derived variance of
every emitted pair is always the Vendor-Bill-side rate minus the other
document's rate (vb_rate - ir_rate in the IR↔VB variant, vb_rate - po_rate
in the PO↔VB variant), regardless of which document carries the later
date; it coincides with later-dated-rate minus earlier-dated-rate exactly
when the VB is strictly later than the paired document (or the two rates
are equal). -/
theorem c3_variance_formula :
    (∀ (minVariance : Rat) (g : IRVB.Group) (p : IRVB.Pair),
      p ∈ IRVB.pairsForGroup minVariance g →
        IRVB.derivedVariance p = p.vb.vb_rate - p.ir.ir_rate) ∧
    (∀ p : IRVB.Pair,
      IRVB.derivedVariance p = IRVB.specLaterMinusEarlier p ↔
        (p.ir.ir_date < p.vb.vb_date ∨ p.vb.vb_rate = p.ir.ir_rate)) ∧
    (∀ (thresholds : POVB.Thresholds) (g : POVB.Group) (p : POVB.Pair),
      p ∈ POVB.pairsForGroup thresholds g →
        POVB.derivedVariance p = p.vb.vb_rate - p.poInfo.po_rate) ∧
    (∀ p : POVB.Pair,
      POVB.derivedVariance p = POVB.specLaterMinusEarlier p ↔
        (p.poInfo.po_date < p.vb.vb_date ∨ p.vb.vb_rate = p.poInfo.po_rate)) := by
  refine ⟨fun _ _ _ _ => rfl, ?_, fun _ _ _ _ => rfl, ?_⟩
  · intro p
    by_cases hd : p.ir.ir_date < p.vb.vb_date
    · simp only [IRVB.specLaterMinusEarlier, IRVB.derivedVariance, if_pos hd]
      exact iff_of_true (by trivial) (Or.inl hd)
    · simp only [IRVB.specLaterMinusEarlier, IRVB.derivedVariance, if_neg hd]
      constructor
      · intro h
        right
        linarith
      · intro h
        rcases h with h | h
        · exact absurd h hd
        · rw [h]
  · intro p
    by_cases hd : p.poInfo.po_date < p.vb.vb_date
    · simp only [POVB.specLaterMinusEarlier, POVB.derivedVariance, if_pos hd]
      exact iff_of_true (by trivial) (Or.inl hd)
    · simp only [POVB.specLaterMinusEarlier, POVB.derivedVariance, if_neg hd]
      constructor
      · intro h
        right
        linarith
      · intro h
        rcases h with h | h
        · exact absurd h hd
        · rw [h]

/-- Witness for claim C3 at one concrete emitted pair of each variant. -/
theorem c3_witness :
    (({ poInfo := { po_id := "1", po_number := "PO1", po_date := 0, vendor_name := "V",
                    item_id := "9", item_number := "N", item_name := "I" },
        ir := { ir_id := "IRA", ir_number := "RA", ir_date := 2, ir_period_closed := false,
                ir_line_id := "a", ir_quantity := 1, ir_rate := 10 },
        vb := { vb_id := "VBX", vb_number := "BX", vb_date := 1, vb_line_id := "x",
                vb_quantity := 1, vb_rate := 12 } } : IRVB.Pair) ∈
      IRVB.pairsForGroup (1/100)
        { poInfo := { po_id := "1", po_number := "PO1", po_date := 0, vendor_name := "V",
                      item_id := "9", item_number := "N", item_name := "I" },
          itemReceipts :=
            [{ ir_id := "IRA", ir_number := "RA", ir_date := 2, ir_period_closed := false,
               ir_line_id := "a", ir_quantity := 1, ir_rate := 10 }],
          vendorBills :=
            [{ vb_id := "VBX", vb_number := "BX", vb_date := 1, vb_line_id := "x",
               vb_quantity := 1, vb_rate := 12 }] }) ∧
    IRVB.derivedVariance
      ({ poInfo := { po_id := "1", po_number := "PO1", po_date := 0, vendor_name := "V",
                     item_id := "9", item_number := "N", item_name := "I" },
         ir := { ir_id := "IRA", ir_number := "RA", ir_date := 2, ir_period_closed := false,
                 ir_line_id := "a", ir_quantity := 1, ir_rate := 10 },
         vb := { vb_id := "VBX", vb_number := "BX", vb_date := 1, vb_line_id := "x",
                 vb_quantity := 1, vb_rate := 12 } } : IRVB.Pair)
      = (12 : Rat) - 10 ∧
    (({ poInfo := { po_id := "1", po_number := "PO1", po_date := 2, vendor_id := "20",
                    vendor_name := "V", location_id := "55", location_name := "L",
                    po_line_key := "k1", item_id := "9", item_name := "I",
                    po_rate := 10, po_quantity := 1 },
        vb := { vb_id := "VB1", vb_number := "B1", vb_date := 1,
                vb_line_key := "x", vb_quantity := 1, vb_rate := 12 } } : POVB.Pair) ∈
      POVB.pairsForGroup { service := 2, kitchens := 2, appliances := 2 }
        { poInfo := { po_id := "1", po_number := "PO1", po_date := 2, vendor_id := "20",
                      vendor_name := "V", location_id := "55", location_name := "L",
                      po_line_key := "k1", item_id := "9", item_name := "I",
                      po_rate := 10, po_quantity := 1 },
          vendorBills := [{ vb_id := "VB1", vb_number := "B1", vb_date := 1,
                            vb_line_key := "x", vb_quantity := 1, vb_rate := 12 }] }) ∧
    POVB.derivedVariance
      ({ poInfo := { po_id := "1", po_number := "PO1", po_date := 2, vendor_id := "20",
                     vendor_name := "V", location_id := "55", location_name := "L",
                     po_line_key := "k1", item_id := "9", item_name := "I",
                     po_rate := 10, po_quantity := 1 },
         vb := { vb_id := "VB1", vb_number := "B1", vb_date := 1,
                 vb_line_key := "x", vb_quantity := 1, vb_rate := 12 } } : POVB.Pair)
      = (12 : Rat) - 10 := by
  have heval1 : IRVB.pairsForGroup (1/100)
      { poInfo := { po_id := "1", po_number := "PO1", po_date := 0, vendor_name := "V",
                    item_id := "9", item_number := "N", item_name := "I" },
        itemReceipts :=
          [{ ir_id := "IRA", ir_number := "RA", ir_date := 2, ir_period_closed := false,
             ir_line_id := "a", ir_quantity := 1, ir_rate := 10 }],
        vendorBills :=
          [{ vb_id := "VBX", vb_number := "BX", vb_date := 1, vb_line_id := "x",
             vb_quantity := 1, vb_rate := 12 }] }
      = [{ poInfo := { po_id := "1", po_number := "PO1", po_date := 0, vendor_name := "V",
                       item_id := "9", item_number := "N", item_name := "I" },
           ir := { ir_id := "IRA", ir_number := "RA", ir_date := 2, ir_period_closed := false,
                   ir_line_id := "a", ir_quantity := 1, ir_rate := 10 },
           vb := { vb_id := "VBX", vb_number := "BX", vb_date := 1, vb_line_id := "x",
                   vb_quantity := 1, vb_rate := 12 } }] := by
    norm_num [IRVB.pairsForGroup, IRVB.sortIRs, IRVB.sortVBs, List.insertionSort,
      List.orderedInsert, ratAbs, List.filterMap_cons, List.filterMap_nil]
  have heval2 : POVB.pairsForGroup { service := 2, kitchens := 2, appliances := 2 }
      { poInfo := { po_id := "1", po_number := "PO1", po_date := 2, vendor_id := "20",
                    vendor_name := "V", location_id := "55", location_name := "L",
                    po_line_key := "k1", item_id := "9", item_name := "I",
                    po_rate := 10, po_quantity := 1 },
        vendorBills := [{ vb_id := "VB1", vb_number := "B1", vb_date := 1,
                          vb_line_key := "x", vb_quantity := 1, vb_rate := 12 }] }
      = [{ poInfo := { po_id := "1", po_number := "PO1", po_date := 2, vendor_id := "20",
                       vendor_name := "V", location_id := "55", location_name := "L",
                       po_line_key := "k1", item_id := "9", item_name := "I",
                       po_rate := 10, po_quantity := 1 },
           vb := { vb_id := "VB1", vb_number := "B1", vb_date := 1,
                   vb_line_key := "x", vb_quantity := 1, vb_rate := 12 } }] := by
    norm_num [POVB.pairsForGroup, POVB.sortBills, List.insertionSort, List.orderedInsert,
      POVB.getThresholdForLocation, POVB.variancePercent, ratAbs]
  have hmem1 := heval1 ▸ List.mem_singleton_self
    ({ poInfo := { po_id := "1", po_number := "PO1", po_date := 0, vendor_name := "V",
                   item_id := "9", item_number := "N", item_name := "I" },
       ir := { ir_id := "IRA", ir_number := "RA", ir_date := 2, ir_period_closed := false,
               ir_line_id := "a", ir_quantity := 1, ir_rate := 10 },
       vb := { vb_id := "VBX", vb_number := "BX", vb_date := 1, vb_line_id := "x",
               vb_quantity := 1, vb_rate := 12 } } : IRVB.Pair)
  have hmem2 := heval2 ▸ List.mem_singleton_self
    ({ poInfo := { po_id := "1", po_number := "PO1", po_date := 2, vendor_id := "20",
                   vendor_name := "V", location_id := "55", location_name := "L",
                   po_line_key := "k1", item_id := "9", item_name := "I",
                   po_rate := 10, po_quantity := 1 },
       vb := { vb_id := "VB1", vb_number := "B1", vb_date := 1,
               vb_line_key := "x", vb_quantity := 1, vb_rate := 12 } } : POVB.Pair)
  exact ⟨hmem1, c3_variance_formula.1 (1/100) _ _ hmem1,
    hmem2, (c3_variance_formula.2.2.1) { service := 2, kitchens := 2, appliances := 2 }
      _ _ hmem2⟩

/-- Claim C6: in the PO↔VB variant a pair is emitted for a group iff,
against the group's oldest Vendor Bill line, the absolute dollar variance
reaches 0.01 and the absolute percent variance reaches the threshold of the
PO line's location bucket; location 113 selects the service threshold,
location 17 the kitchens threshold, and every other location the appliances
threshold; with a 2% bucket threshold, PO rate 100 vs VB rate 101 is
excluded and PO rate 100 vs VB rate 103 is included. -/
theorem c6_povb_threshold_inclusion :
    (∀ (locationId : String) (t : POVB.Thresholds),
      POVB.getThresholdForLocation locationId t =
        if locationId = "113" then t.service
        else if locationId = "17" then t.kitchens else t.appliances) ∧
    (∀ (t : POVB.Thresholds) (g : POVB.Group),
      ((POVB.pairsForGroup t g).length = 1 ↔
        ∃ vb rest, POVB.sortBills g.vendorBills = vb :: rest ∧
          1/100 ≤ ratAbs (vb.vb_rate - g.poInfo.po_rate) ∧
          POVB.getThresholdForLocation g.poInfo.location_id t ≤
            ratAbs (POVB.variancePercent g.poInfo.po_rate
              (vb.vb_rate - g.poInfo.po_rate)))) ∧
    ((POVB.pairsForGroup { service := 2, kitchens := 2, appliances := 2 }
        { poInfo := { po_id := "1", po_number := "PO1", po_date := 0, vendor_id := "20",
                      vendor_name := "V", location_id := "55", location_name := "L",
                      po_line_key := "k1", item_id := "9", item_name := "I",
                      po_rate := 100, po_quantity := 1 },
          vendorBills := [{ vb_id := "VB1", vb_number := "B1", vb_date := 0,
                            vb_line_key := "x", vb_quantity := 1, vb_rate := 101 }] }).length
        = 0 ∧
     (POVB.pairsForGroup { service := 2, kitchens := 2, appliances := 2 }
        { poInfo := { po_id := "1", po_number := "PO1", po_date := 0, vendor_id := "20",
                      vendor_name := "V", location_id := "55", location_name := "L",
                      po_line_key := "k1", item_id := "9", item_name := "I",
                      po_rate := 100, po_quantity := 1 },
          vendorBills := [{ vb_id := "VB1", vb_number := "B1", vb_date := 0,
                            vb_line_key := "x", vb_quantity := 1, vb_rate := 103 }] }).length
        = 1) := by
  refine ⟨fun locationId t => rfl, ?_, ?_, ?_⟩
  · intro t g
    cases hs : POVB.sortBills g.vendorBills with
    | nil =>
      simp [POVB.pairsForGroup, hs]
    | cons vb rest =>
      simp only [POVB.pairsForGroup, hs]
      by_cases hc : 1/100 ≤ ratAbs (vb.vb_rate - g.poInfo.po_rate) ∧
          POVB.getThresholdForLocation g.poInfo.location_id t ≤
            ratAbs (POVB.variancePercent g.poInfo.po_rate
              (vb.vb_rate - g.poInfo.po_rate))
      · rw [if_pos hc]
        exact iff_of_true rfl ⟨vb, rest, rfl, hc.1, hc.2⟩
      · rw [if_neg hc]
        refine iff_of_false (by simp) ?_
        rintro ⟨vb2, rest2, heq, h1, h2⟩
        have hv : vb2 = vb := by
          injection heq with hh
          exact hh.symm
        subst hv
        exact hc ⟨h1, h2⟩
  · norm_num [POVB.pairsForGroup, POVB.sortBills, List.insertionSort, List.orderedInsert,
      POVB.getThresholdForLocation, POVB.variancePercent, ratAbs]
  · norm_num [POVB.pairsForGroup, POVB.sortBills, List.insertionSort, List.orderedInsert,
      POVB.getThresholdForLocation, POVB.variancePercent, ratAbs]

theorem IRVB.lookupG_insertRow (row : IRVB.Row) (gs : List (String × IRVB.Group))
    (k : String) :
    IRVB.lookupG (IRVB.insertRow row gs) k =
      if row.po_line_id = k then
        some (match IRVB.lookupG gs k with
              | some g => IRVB.addRow g row
              | none => IRVB.addRow (IRVB.newGroup row.poInfo) row)
      else IRVB.lookupG gs k := by
  induction gs with
  | nil => rfl
  | cons hd rest ih =>
    obtain ⟨k2, g⟩ := hd
    simp only [IRVB.insertRow]
    by_cases h1 : k2 = row.po_line_id
    · rw [if_pos h1]
      simp only [IRVB.lookupG]
      by_cases h2 : k2 = k
      · have h3 : row.po_line_id = k := h1.symm.trans h2
        rw [if_pos h2, if_pos h3, if_pos h2]
      · have h3 : ¬ (row.po_line_id = k) := fun hc => h2 (h1.trans hc)
        rw [if_neg h2, if_neg h3, if_neg h2]
    · rw [if_neg h1]
      simp only [IRVB.lookupG]
      by_cases h2 : k2 = k
      · have h3 : ¬ (row.po_line_id = k) := fun hc => h1 (h2.trans hc.symm)
        rw [if_pos h2, if_neg h3, if_pos h2]
      · rw [if_neg h2, ih, if_neg h2]

theorem IRVB.lookupG_fold (rows : List IRVB.Row) (gs : List (String × IRVB.Group))
    (k : String) :
    IRVB.lookupG (rows.foldl (fun a r => IRVB.insertRow r a) gs) k =
      match IRVB.lookupG gs k, IRVB.rowsWithKey k rows with
      | some g, rs => some (rs.foldl IRVB.addRow g)
      | none, [] => none
      | none, r :: rs => some ((r :: rs).foldl IRVB.addRow (IRVB.newGroup r.poInfo)) := by
  induction rows generalizing gs with
  | nil =>
    cases h : IRVB.lookupG gs k <;> simp [IRVB.rowsWithKey, h]
  | cons r rest ih =>
    rw [List.foldl_cons, ih (IRVB.insertRow r gs), IRVB.lookupG_insertRow]
    by_cases hk : r.po_line_id = k
    · have hfil : IRVB.rowsWithKey k (r :: rest) = r :: IRVB.rowsWithKey k rest := by
        simp [IRVB.rowsWithKey, List.filter_cons, hk]
      rw [if_pos hk, hfil]
      cases h : IRVB.lookupG gs k with
      | some g => simp [List.foldl_cons]
      | none => simp [List.foldl_cons]
    · have hfil : IRVB.rowsWithKey k (r :: rest) = IRVB.rowsWithKey k rest := by
        simp [IRVB.rowsWithKey, List.filter_cons, hk]
      rw [if_neg hk, hfil]

theorem IRVB.keysG_insertRow (row : IRVB.Row) (gs : List (String × IRVB.Group)) :
    IRVB.keysG (IRVB.insertRow row gs) =
      if row.po_line_id ∈ IRVB.keysG gs then IRVB.keysG gs
      else IRVB.keysG gs ++ [row.po_line_id] := by
  induction gs with
  | nil => simp [IRVB.insertRow, IRVB.keysG]
  | cons hd rest ih =>
    obtain ⟨k2, g⟩ := hd
    simp only [IRVB.insertRow, IRVB.keysG, List.map_cons]
    by_cases h1 : k2 = row.po_line_id
    · rw [if_pos h1]
      have hmem : row.po_line_id ∈ k2 :: List.map Prod.fst rest :=
        List.mem_cons.mpr (Or.inl h1.symm)
      rw [if_pos hmem]
      simp [IRVB.keysG]
    · rw [if_neg h1]
      by_cases hm : row.po_line_id ∈ List.map Prod.fst rest
      · have hmem : row.po_line_id ∈ k2 :: List.map Prod.fst rest :=
          List.mem_cons.mpr (Or.inr hm)
        rw [if_pos hmem]
        simp only [List.map_cons, List.cons.injEq, true_and]
        have := ih
        simp only [IRVB.keysG] at this
        rw [this, if_pos hm]
      · have hmem : ¬ row.po_line_id ∈ k2 :: List.map Prod.fst rest := by
          intro hc
          rcases List.mem_cons.mp hc with hc | hc
          · exact h1 hc.symm
          · exact hm hc
        rw [if_neg hmem]
        simp only [List.map_cons, List.cons_append, List.cons.injEq, true_and]
        have := ih
        simp only [IRVB.keysG] at this
        rw [this, if_neg hm]

theorem IRVB.keysG_fold_nodup (rows : List IRVB.Row) (gs : List (String × IRVB.Group))
    (h : (IRVB.keysG gs).Nodup) :
    (IRVB.keysG (rows.foldl (fun a r => IRVB.insertRow r a) gs)).Nodup := by
  induction rows generalizing gs with
  | nil => exact h
  | cons r rest ih =>
    rw [List.foldl_cons]
    apply ih
    rw [IRVB.keysG_insertRow]
    by_cases hm : r.po_line_id ∈ IRVB.keysG gs
    · rw [if_pos hm]
      exact h
    · rw [if_neg hm]
      exact List.Nodup.append h (List.nodup_singleton _) (by simp [List.disjoint_singleton, hm])

theorem IRVB.mem_keysG_fold (rows : List IRVB.Row) (gs : List (String × IRVB.Group))
    (k : String) :
    k ∈ IRVB.keysG (rows.foldl (fun a r => IRVB.insertRow r a) gs) ↔
      k ∈ IRVB.keysG gs ∨ k ∈ rows.map IRVB.Row.po_line_id := by
  induction rows generalizing gs with
  | nil => simp
  | cons r rest ih =>
    rw [List.foldl_cons, ih, IRVB.keysG_insertRow]
    by_cases hm : r.po_line_id ∈ IRVB.keysG gs
    · rw [if_pos hm]
      simp only [List.map_cons, List.mem_cons]
      constructor
      · rintro (h | h)
        · exact Or.inl h
        · exact Or.inr (Or.inr h)
      · rintro (h | h | h)
        · exact Or.inl h
        · exact Or.inl (h ▸ hm)
        · exact Or.inr h
    · rw [if_neg hm]
      simp only [List.mem_append, List.mem_singleton, List.map_cons, List.mem_cons]
      tauto

theorem IRVB.lookupG_eq_some_iff (gs : List (String × IRVB.Group))
    (hnd : (IRVB.keysG gs).Nodup) (k : String) (g : IRVB.Group) :
    IRVB.lookupG gs k = some g ↔ (k, g) ∈ gs := by
  induction gs with
  | nil => simp [IRVB.lookupG]
  | cons hd rest ih =>
    obtain ⟨k2, g2⟩ := hd
    simp only [IRVB.keysG, List.map_cons, List.nodup_cons] at hnd
    simp only [IRVB.lookupG, List.mem_cons]
    by_cases h2 : k2 = k
    · subst h2
      rw [if_pos rfl]
      constructor
      · intro h
        injection h with h
        exact Or.inl (by rw [h])
      · rintro (h | h)
        · have h1 := congrArg Prod.snd h
          simp at h1
          rw [h1]
        · exfalso
          apply hnd.1
          have := List.mem_map_of_mem Prod.fst h
          simpa using this
    · rw [if_neg h2, ih hnd.2]
      constructor
      · exact Or.inr
      · rintro (h | h)
        · exfalso
          have h1 := congrArg Prod.fst h
          simp at h1
          exact h2 h1.symm
        · exact h

theorem IRVB.dedupList_nil {α : Type} (key : α → String) (init : List α) :
    IRVB.dedupList key init [] = init := rfl

theorem IRVB.dedupList_cons {α : Type} (key : α → String) (init : List α) (a : α)
    (as : List α) :
    IRVB.dedupList key init (a :: as) = IRVB.dedupList key (IRVB.dedupAdd key init a) as := rfl

theorem IRVB.mem_dedupList {α : Type} (key : α → String) (init l : List α) (x : α)
    (h : x ∈ IRVB.dedupList key init l) : x ∈ init ∨ x ∈ l := by
  induction l generalizing init with
  | nil => exact Or.inl h
  | cons a as ih =>
    rw [IRVB.dedupList_cons] at h
    rcases ih (IRVB.dedupAdd key init a) h with h1 | h1
    · simp only [IRVB.dedupAdd] at h1
      by_cases hc : init.any (fun y => key y == key a)
      · rw [if_pos hc] at h1
        exact Or.inl h1
      · rw [if_neg hc] at h1
        rcases List.mem_append.mp h1 with h2 | h2
        · exact Or.inl h2
        · simp only [List.mem_singleton] at h2
          exact Or.inr (by simp [h2])
    · exact Or.inr (List.mem_cons_of_mem a h1)

theorem IRVB.key_mem_dedupList {α : Type} (key : α → String) (init l : List α)
    (c : String) :
    (∃ x ∈ IRVB.dedupList key init l, key x = c) ↔
      (∃ x ∈ init, key x = c) ∨ (∃ x ∈ l, key x = c) := by
  induction l generalizing init with
  | nil => simp [IRVB.dedupList_nil]
  | cons a as ih =>
    rw [IRVB.dedupList_cons, ih (IRVB.dedupAdd key init a)]
    simp only [IRVB.dedupAdd]
    by_cases hc : init.any (fun y => key y == key a)
    · rw [if_pos hc]
      rcases List.any_eq_true.mp hc with ⟨y, hy, hky⟩
      have hky2 : key y = key a := by simpa using hky
      constructor
      · rintro (h | h)
        · exact Or.inl h
        · exact Or.inr ⟨h.choose, List.mem_cons_of_mem a h.choose_spec.1, h.choose_spec.2⟩
      · rintro (h | h)
        · exact Or.inl h
        · rcases h with ⟨x, hx, hkx⟩
          rcases List.mem_cons.mp hx with rfl | hx2
          · exact Or.inl ⟨y, hy, hky2.trans hkx⟩
          · exact Or.inr ⟨x, hx2, hkx⟩
    · rw [if_neg hc]
      constructor
      · rintro (h | h)
        · rcases h with ⟨x, hx, hkx⟩
          rcases List.mem_append.mp hx with h2 | h2
          · exact Or.inl ⟨x, h2, hkx⟩
          · simp only [List.mem_singleton] at h2
            exact Or.inr ⟨x, by simp [h2], hkx⟩
        · rcases h with ⟨x, hx, hkx⟩
          exact Or.inr ⟨x, List.mem_cons_of_mem a hx, hkx⟩
      · rintro (h | h)
        · rcases h with ⟨x, hx, hkx⟩
          exact Or.inl ⟨x, List.mem_append_left _ hx, hkx⟩
        · rcases h with ⟨x, hx, hkx⟩
          rcases List.mem_cons.mp hx with rfl | hx2
          · exact Or.inl ⟨x, List.mem_append_right _ (List.mem_singleton_self x), hkx⟩
          · exact Or.inr ⟨x, hx2, hkx⟩

theorem IRVB.dedupList_keys_nodup {α : Type} (key : α → String) (init l : List α)
    (h : (init.map key).Nodup) :
    ((IRVB.dedupList key init l).map key).Nodup := by
  induction l generalizing init with
  | nil => exact h
  | cons a as ih =>
    rw [IRVB.dedupList_cons]
    apply ih
    simp only [IRVB.dedupAdd]
    by_cases hc : init.any (fun y => key y == key a)
    · rw [if_pos hc]
      exact h
    · rw [if_neg hc]
      rw [List.map_append]
      refine List.Nodup.append h (by simp) ?_
      intro c hc1 hc2
      simp only [List.map_cons, List.map_nil, List.mem_singleton] at hc2
      subst hc2
      rcases List.mem_map.mp hc1 with ⟨y, hy, hky⟩
      apply hc
      exact List.any_eq_true.mpr ⟨y, hy, by simp [hky]⟩

theorem IRVB.mem_dedupList_iff {α : Type} (key : α → String) (l : List α)
    (hdet : ∀ x ∈ l, ∀ y ∈ l, key x = key y → x = y) (x : α) :
    x ∈ IRVB.dedupList key [] l ↔ x ∈ l := by
  constructor
  · intro h
    rcases IRVB.mem_dedupList key [] l x h with h1 | h1
    · simp at h1
    · exact h1
  · intro h
    have hcov : ∃ y ∈ IRVB.dedupList key [] l, key y = key x := by
      rw [IRVB.key_mem_dedupList]
      exact Or.inr ⟨x, h, rfl⟩
    rcases hcov with ⟨y, hy, hky⟩
    have hyl : y ∈ l := by
      rcases IRVB.mem_dedupList key [] l y hy with h1 | h1
      · simp at h1
      · exact h1
    have hxy : y = x := hdet y hyl x h hky
    rwa [hxy] at hy

theorem IRVB.dedupList_perm {α : Type} [DecidableEq α] (key : α → String)
    (l1 l2 : List α) (hp : l1.Perm l2)
    (hdet : ∀ x ∈ l1, ∀ y ∈ l1, key x = key y → x = y) :
    (IRVB.dedupList key [] l1).Perm (IRVB.dedupList key [] l2) := by
  have hdet2 : ∀ x ∈ l2, ∀ y ∈ l2, key x = key y → x = y := by
    intro x hx y hy
    exact hdet x (hp.mem_iff.mpr hx) y (hp.mem_iff.mpr hy)
  have h1 : (IRVB.dedupList key [] l1).Nodup :=
    List.Nodup.of_map key (IRVB.dedupList_keys_nodup key [] l1 (by simp))
  have h2 : (IRVB.dedupList key [] l2).Nodup :=
    List.Nodup.of_map key (IRVB.dedupList_keys_nodup key [] l2 (by simp))
  apply List.perm_of_nodup_nodup_toFinset_eq h1 h2
  ext a
  simp only [List.mem_toFinset]
  rw [IRVB.mem_dedupList_iff key l1 hdet, IRVB.mem_dedupList_iff key l2 hdet2]
  exact hp.mem_iff

theorem IRVB.foldl_addRow_decompose (g : IRVB.Group) (rs : List IRVB.Row) :
    rs.foldl IRVB.addRow g =
      { poInfo := g.poInfo,
        itemReceipts :=
          IRVB.dedupList IRVB.IRLine.ir_line_id g.itemReceipts (rs.map IRVB.Row.ir),
        vendorBills :=
          IRVB.dedupList IRVB.VBLine.vb_line_id g.vendorBills (rs.map IRVB.Row.vb) } := by
  induction rs generalizing g with
  | nil => rfl
  | cons r rs ih =>
    rw [List.foldl_cons, ih]
    rfl

theorem IRVB.sort_eq_of_perm {α : Type} (f : α → Int) (le : α → α → Prop)
    [DecidableRel le] [IsTotal α le] [IsTrans α le]
    (hle : ∀ a b, le a b ↔ f a ≤ f b)
    (l1 l2 : List α) (hp : l1.Perm l2) (hnd : (l1.map f).Nodup) :
    List.insertionSort le l1 = List.insertionSort le l2 := by
  have hperm : (List.insertionSort le l1).Perm (List.insertionSort le l2) :=
    (List.perm_insertionSort le l1).trans (hp.trans (List.perm_insertionSort le l2).symm)
  haveI : IsAntisymm α (fun a b => f a < f b ∨ a = b) := by
    refine ⟨?_⟩
    intro a b h1 h2
    rcases h1 with h1 | h1
    · rcases h2 with h2 | h2
      · exact absurd h1 (not_lt.mpr (le_of_lt h2))
      · exact h2.symm
    · exact h1
  have hstrict : ∀ l : List α, l.Perm l1 → List.Sorted le l →
      List.Sorted (fun a b => f a < f b ∨ a = b) l := by
    intro l hpl hsl
    have hndl : (l.map f).Nodup := ((hpl.map f).nodup_iff).mpr hnd
    have hne : List.Pairwise (fun a b => f a ≠ f b) l := List.pairwise_map.mp hndl
    exact (hsl.and hne).imp (fun hab => Or.inl (lt_of_le_of_ne ((hle _ _).mp hab.1) hab.2))
  exact List.eq_of_perm_of_sorted hperm
    (hstrict _ (List.perm_insertionSort le l1) (List.sorted_insertionSort le l1))
    (hstrict _ ((List.perm_insertionSort le l2).trans hp.symm) (List.sorted_insertionSort le l2))

theorem IRVB.pairsForGroup_congr (minVariance : Rat) (g1 g2 : IRVB.Group)
    (hpo : g1.poInfo = g2.poInfo)
    (hir : IRVB.sortIRs g1.itemReceipts = IRVB.sortIRs g2.itemReceipts)
    (hvb : IRVB.sortVBs g1.vendorBills = IRVB.sortVBs g2.vendorBills) :
    IRVB.pairsForGroup minVariance g1 = IRVB.pairsForGroup minVariance g2 := by
  simp only [IRVB.pairsForGroup, hpo, hir, hvb]

theorem IRVB.createVariancePairs_eq_keys (minVariance : Rat)
    (gs : List (String × IRVB.Group)) (hnd : (IRVB.keysG gs).Nodup) :
    IRVB.createVariancePairs minVariance gs =
      (IRVB.keysG gs).flatMap (fun k =>
        match IRVB.lookupG gs k with
        | some g => IRVB.pairsForGroup minVariance g
        | none => []) := by
  induction gs with
  | nil => rfl
  | cons hd rest ih =>
    obtain ⟨k2, g2⟩ := hd
    simp only [IRVB.keysG, List.map_cons, List.nodup_cons] at hnd
    have htail : (IRVB.keysG rest).flatMap (fun k =>
          match IRVB.lookupG ((k2, g2) :: rest) k with
          | some g => IRVB.pairsForGroup minVariance g
          | none => [])
        = (IRVB.keysG rest).flatMap (fun k =>
          match IRVB.lookupG rest k with
          | some g => IRVB.pairsForGroup minVariance g
          | none => []) := by
      rw [List.flatMap_def, List.flatMap_def]
      congr 1
      apply List.map_congr_left
      intro k hk
      have hne : ¬ (k2 = k) := fun e => hnd.1 (e ▸ hk)
      simp [IRVB.lookupG, hne]
    simp only [IRVB.createVariancePairs, IRVB.keysG, List.map_cons, List.flatMap_cons]
    congr 1
    · simp [IRVB.lookupG]
    · have hLHS : rest.flatMap (fun kg => IRVB.pairsForGroup minVariance kg.2)
          = IRVB.createVariancePairs minVariance rest := rfl
      rw [hLHS, ih hnd.2, ← htail]
      rfl

/-- Claim C8 as amended: grouping followed by positional pairing is
order-independent of the raw row order as a multiset of pairs, provided
rows are key-consistent (rows sharing a PO-line key carry the same PO info,
rows sharing an IR or VB line-unique-key carry the same IR or VB payload)
and, within each PO-line group, distinct IR lines carry pairwise-distinct
dates and likewise distinct VB lines (the spec's own tie case: on equal
dates the stable sort falls back to discovery order, which does depend on
input row order). -/
theorem c8_order_independence (minVariance : Rat) (rows1 rows2 : List IRVB.Row)
    (hperm : rows1.Perm rows2)
    (hpo : ∀ r1 ∈ rows1, ∀ r2 ∈ rows1, r1.po_line_id = r2.po_line_id →
      r1.poInfo = r2.poInfo)
    (hir : ∀ r1 ∈ rows1, ∀ r2 ∈ rows1, r1.ir.ir_line_id = r2.ir.ir_line_id →
      r1.ir = r2.ir)
    (hvb : ∀ r1 ∈ rows1, ∀ r2 ∈ rows1, r1.vb.vb_line_id = r2.vb.vb_line_id →
      r1.vb = r2.vb)
    (hdir : ∀ r1 ∈ rows1, ∀ r2 ∈ rows1, r1.po_line_id = r2.po_line_id →
      r1.ir.ir_line_id ≠ r2.ir.ir_line_id → r1.ir.ir_date ≠ r2.ir.ir_date)
    (hdvb : ∀ r1 ∈ rows1, ∀ r2 ∈ rows1, r1.po_line_id = r2.po_line_id →
      r1.vb.vb_line_id ≠ r2.vb.vb_line_id → r1.vb.vb_date ≠ r2.vb.vb_date) :
    (IRVB.allPairs minVariance rows1).Perm (IRVB.allPairs minVariance rows2) := by
  have hnd1 : (IRVB.keysG (IRVB.groupByPOLine rows1)).Nodup :=
    IRVB.keysG_fold_nodup rows1 [] (by simp [IRVB.keysG])
  have hnd2 : (IRVB.keysG (IRVB.groupByPOLine rows2)).Nodup :=
    IRVB.keysG_fold_nodup rows2 [] (by simp [IRVB.keysG])
  have hmem1 : ∀ k, k ∈ IRVB.keysG (IRVB.groupByPOLine rows1) ↔
      k ∈ rows1.map IRVB.Row.po_line_id := by
    intro k
    have h := IRVB.mem_keysG_fold rows1 [] k
    simpa [IRVB.keysG] using h
  have hmem2 : ∀ k, k ∈ IRVB.keysG (IRVB.groupByPOLine rows2) ↔
      k ∈ rows2.map IRVB.Row.po_line_id := by
    intro k
    have h := IRVB.mem_keysG_fold rows2 [] k
    simpa [IRVB.keysG] using h
  have hkeys : (IRVB.keysG (IRVB.groupByPOLine rows1)).Perm
      (IRVB.keysG (IRVB.groupByPOLine rows2)) := by
    apply List.perm_of_nodup_nodup_toFinset_eq hnd1 hnd2
    ext k
    simp only [List.mem_toFinset]
    rw [hmem1 k, hmem2 k]
    exact (hperm.map IRVB.Row.po_line_id).mem_iff
  have hFF : ∀ k ∈ IRVB.keysG (IRVB.groupByPOLine rows1),
      (match IRVB.lookupG (IRVB.groupByPOLine rows1) k with
       | some g => IRVB.pairsForGroup minVariance g
       | none => []) =
      (match IRVB.lookupG (IRVB.groupByPOLine rows2) k with
       | some g => IRVB.pairsForGroup minVariance g
       | none => []) := by
    intro k hk
    have hmemrows1 : ∀ r ∈ IRVB.rowsWithKey k rows1, r ∈ rows1 ∧ r.po_line_id = k := by
      intro r hr
      have h := List.mem_filter.mp hr
      exact ⟨h.1, by simpa using h.2⟩
    have hmemrows2 : ∀ r ∈ IRVB.rowsWithKey k rows2, r ∈ rows1 ∧ r.po_line_id = k := by
      intro r hr
      have h := List.mem_filter.mp hr
      exact ⟨hperm.mem_iff.mpr h.1, by simpa using h.2⟩
    have hfilperm : (IRVB.rowsWithKey k rows1).Perm (IRVB.rowsWithKey k rows2) :=
      hperm.filter _
    cases h1 : IRVB.rowsWithKey k rows1 with
    | nil =>
      exfalso
      rcases List.mem_map.mp ((hmem1 k).mp hk) with ⟨r, hr, hrk⟩
      have : r ∈ IRVB.rowsWithKey k rows1 := List.mem_filter.mpr ⟨hr, by simpa using hrk⟩
      rw [h1] at this
      simp at this
    | cons r1 rs1 =>
      cases h2 : IRVB.rowsWithKey k rows2 with
      | nil =>
        exfalso
        have h3 := hfilperm
        rw [h1, h2] at h3
        simpa using h3.length_eq
      | cons r2 rs2 =>
        have e1 : IRVB.lookupG (IRVB.groupByPOLine rows1) k
            = some ((r1 :: rs1).foldl IRVB.addRow (IRVB.newGroup r1.poInfo)) := by
          have h := IRVB.lookupG_fold rows1 [] k
          rw [h1] at h
          exact h
        have e2 : IRVB.lookupG (IRVB.groupByPOLine rows2) k
            = some ((r2 :: rs2).foldl IRVB.addRow (IRVB.newGroup r2.poInfo)) := by
          have h := IRVB.lookupG_fold rows2 [] k
          rw [h2] at h
          exact h
        have hr1 : r1 ∈ rows1 ∧ r1.po_line_id = k := by
          apply hmemrows1
          rw [h1]
          exact List.mem_cons_self r1 rs1
        have hr2 : r2 ∈ rows1 ∧ r2.po_line_id = k := by
          apply hmemrows2
          rw [h2]
          exact List.mem_cons_self r2 rs2
        have hpoeq : r1.poInfo = r2.poInfo :=
          hpo r1 hr1.1 r2 hr2.1 (hr1.2.trans hr2.2.symm)
        have hpermIR : ((r1 :: rs1).map IRVB.Row.ir).Perm ((r2 :: rs2).map IRVB.Row.ir) := by
          rw [← h1, ← h2]
          exact hfilperm.map _
        have hdetIR : ∀ x ∈ (r1 :: rs1).map IRVB.Row.ir, ∀ y ∈ (r1 :: rs1).map IRVB.Row.ir,
            x.ir_line_id = y.ir_line_id → x = y := by
          rw [← h1]
          intro x hx y hy hk2
          rcases List.mem_map.mp hx with ⟨ra, hra, hra2⟩
          rcases List.mem_map.mp hy with ⟨rb, hrb, hrb2⟩
          rw [← hra2, ← hrb2] at hk2 ⊢
          exact hir ra (hmemrows1 ra hra).1 rb (hmemrows1 rb hrb).1 hk2
        have hdedupIR : (IRVB.dedupList IRVB.IRLine.ir_line_id []
              ((r1 :: rs1).map IRVB.Row.ir)).Perm
            (IRVB.dedupList IRVB.IRLine.ir_line_id [] ((r2 :: rs2).map IRVB.Row.ir)) :=
          IRVB.dedupList_perm _ _ _ hpermIR hdetIR
        have hdatesIR : ((IRVB.dedupList IRVB.IRLine.ir_line_id []
              ((r1 :: rs1).map IRVB.Row.ir)).map IRVB.IRLine.ir_date).Nodup := by
          apply List.pairwise_map.mpr
          have hknd : List.Pairwise (fun a b => a.ir_line_id ≠ b.ir_line_id)
              (IRVB.dedupList IRVB.IRLine.ir_line_id [] ((r1 :: rs1).map IRVB.Row.ir)) :=
            List.pairwise_map.mp (IRVB.dedupList_keys_nodup _ _ _ (by simp))
          refine hknd.imp_of_mem ?_
          intro a b ha hb hne
          have ha' : a ∈ (r1 :: rs1).map IRVB.Row.ir := by
            rcases IRVB.mem_dedupList _ _ _ _ ha with h | h
            · simp at h
            · exact h
          have hb' : b ∈ (r1 :: rs1).map IRVB.Row.ir := by
            rcases IRVB.mem_dedupList _ _ _ _ hb with h | h
            · simp at h
            · exact h
          rw [← h1] at ha' hb'
          rcases List.mem_map.mp ha' with ⟨ra, hra, hra2⟩
          rcases List.mem_map.mp hb' with ⟨rb, hrb, hrb2⟩
          rw [← hra2, ← hrb2] at hne ⊢
          exact hdir ra (hmemrows1 ra hra).1 rb (hmemrows1 rb hrb).1
            ((hmemrows1 ra hra).2.trans ((hmemrows1 rb hrb).2).symm) hne
        have hsortIR : List.insertionSort IRVB.irDateLE
              (IRVB.dedupList IRVB.IRLine.ir_line_id [] ((r1 :: rs1).map IRVB.Row.ir))
            = List.insertionSort IRVB.irDateLE
              (IRVB.dedupList IRVB.IRLine.ir_line_id [] ((r2 :: rs2).map IRVB.Row.ir)) :=
          IRVB.sort_eq_of_perm IRVB.IRLine.ir_date IRVB.irDateLE (fun _ _ => Iff.rfl)
            _ _ hdedupIR hdatesIR
        have hpermVB : ((r1 :: rs1).map IRVB.Row.vb).Perm ((r2 :: rs2).map IRVB.Row.vb) := by
          rw [← h1, ← h2]
          exact hfilperm.map _
        have hdetVB : ∀ x ∈ (r1 :: rs1).map IRVB.Row.vb, ∀ y ∈ (r1 :: rs1).map IRVB.Row.vb,
            x.vb_line_id = y.vb_line_id → x = y := by
          rw [← h1]
          intro x hx y hy hk2
          rcases List.mem_map.mp hx with ⟨ra, hra, hra2⟩
          rcases List.mem_map.mp hy with ⟨rb, hrb, hrb2⟩
          rw [← hra2, ← hrb2] at hk2 ⊢
          exact hvb ra (hmemrows1 ra hra).1 rb (hmemrows1 rb hrb).1 hk2
        have hdedupVB : (IRVB.dedupList IRVB.VBLine.vb_line_id []
              ((r1 :: rs1).map IRVB.Row.vb)).Perm
            (IRVB.dedupList IRVB.VBLine.vb_line_id [] ((r2 :: rs2).map IRVB.Row.vb)) :=
          IRVB.dedupList_perm _ _ _ hpermVB hdetVB
        have hdatesVB : ((IRVB.dedupList IRVB.VBLine.vb_line_id []
              ((r1 :: rs1).map IRVB.Row.vb)).map IRVB.VBLine.vb_date).Nodup := by
          apply List.pairwise_map.mpr
          have hknd : List.Pairwise (fun a b => a.vb_line_id ≠ b.vb_line_id)
              (IRVB.dedupList IRVB.VBLine.vb_line_id [] ((r1 :: rs1).map IRVB.Row.vb)) :=
            List.pairwise_map.mp (IRVB.dedupList_keys_nodup _ _ _ (by simp))
          refine hknd.imp_of_mem ?_
          intro a b ha hb hne
          have ha' : a ∈ (r1 :: rs1).map IRVB.Row.vb := by
            rcases IRVB.mem_dedupList _ _ _ _ ha with h | h
            · simp at h
            · exact h
          have hb' : b ∈ (r1 :: rs1).map IRVB.Row.vb := by
            rcases IRVB.mem_dedupList _ _ _ _ hb with h | h
            · simp at h
            · exact h
          rw [← h1] at ha' hb'
          rcases List.mem_map.mp ha' with ⟨ra, hra, hra2⟩
          rcases List.mem_map.mp hb' with ⟨rb, hrb, hrb2⟩
          rw [← hra2, ← hrb2] at hne ⊢
          exact hdvb ra (hmemrows1 ra hra).1 rb (hmemrows1 rb hrb).1
            ((hmemrows1 ra hra).2.trans ((hmemrows1 rb hrb).2).symm) hne
        have hsortVB : List.insertionSort IRVB.vbDateLE
              (IRVB.dedupList IRVB.VBLine.vb_line_id [] ((r1 :: rs1).map IRVB.Row.vb))
            = List.insertionSort IRVB.vbDateLE
              (IRVB.dedupList IRVB.VBLine.vb_line_id [] ((r2 :: rs2).map IRVB.Row.vb)) :=
          IRVB.sort_eq_of_perm IRVB.VBLine.vb_date IRVB.vbDateLE (fun _ _ => Iff.rfl)
            _ _ hdedupVB hdatesVB
        have hG : IRVB.pairsForGroup minVariance
              ((r1 :: rs1).foldl IRVB.addRow (IRVB.newGroup r1.poInfo))
            = IRVB.pairsForGroup minVariance
              ((r2 :: rs2).foldl IRVB.addRow (IRVB.newGroup r2.poInfo)) := by
          rw [IRVB.foldl_addRow_decompose, IRVB.foldl_addRow_decompose]
          exact IRVB.pairsForGroup_congr minVariance _ _ hpoeq hsortIR hsortVB
        rw [e1, e2]
        exact hG
  simp only [IRVB.allPairs]
  rw [IRVB.createVariancePairs_eq_keys minVariance (IRVB.groupByPOLine rows1) hnd1,
    IRVB.createVariancePairs_eq_keys minVariance (IRVB.groupByPOLine rows2) hnd2,
    List.flatMap_def, List.flatMap_def]
  rw [List.map_congr_left hFF]
  exact (hkeys.map _).flatten

/-- Claim C8 counterexample: two permutations of the same two raw rows
(whose two distinct IR lines share one date) pair different IR lines with
the single VB line, because the stable sort ties break by discovery order. -/
theorem c8_counterexample :
    ([({ po_line_id := "1",
         poInfo := { po_id := "1", po_number := "PO1", po_date := 0, vendor_name := "V",
                     item_id := "9", item_number := "N", item_name := "I" },
         ir := { ir_id := "IRA", ir_number := "RA", ir_date := 0, ir_period_closed := false,
                 ir_line_id := "a", ir_quantity := 1, ir_rate := 10 },
         vb := { vb_id := "VBX", vb_number := "BX", vb_date := 0, vb_line_id := "x",
                 vb_quantity := 1, vb_rate := 30 } } : IRVB.Row),
      { po_line_id := "1",
        poInfo := { po_id := "1", po_number := "PO1", po_date := 0, vendor_name := "V",
                    item_id := "9", item_number := "N", item_name := "I" },
        ir := { ir_id := "IRB", ir_number := "RB", ir_date := 0, ir_period_closed := false,
                ir_line_id := "b", ir_quantity := 1, ir_rate := 20 },
        vb := { vb_id := "VBX", vb_number := "BX", vb_date := 0, vb_line_id := "x",
                vb_quantity := 1, vb_rate := 30 } }].Perm
      [({ po_line_id := "1",
          poInfo := { po_id := "1", po_number := "PO1", po_date := 0, vendor_name := "V",
                      item_id := "9", item_number := "N", item_name := "I" },
          ir := { ir_id := "IRB", ir_number := "RB", ir_date := 0, ir_period_closed := false,
                  ir_line_id := "b", ir_quantity := 1, ir_rate := 20 },
          vb := { vb_id := "VBX", vb_number := "BX", vb_date := 0, vb_line_id := "x",
                  vb_quantity := 1, vb_rate := 30 } } : IRVB.Row),
       { po_line_id := "1",
         poInfo := { po_id := "1", po_number := "PO1", po_date := 0, vendor_name := "V",
                     item_id := "9", item_number := "N", item_name := "I" },
         ir := { ir_id := "IRA", ir_number := "RA", ir_date := 0, ir_period_closed := false,
                 ir_line_id := "a", ir_quantity := 1, ir_rate := 10 },
         vb := { vb_id := "VBX", vb_number := "BX", vb_date := 0, vb_line_id := "x",
                 vb_quantity := 1, vb_rate := 30 } }] ∧
    ¬ (IRVB.allPairs (1/100)
        [({ po_line_id := "1",
            poInfo := { po_id := "1", po_number := "PO1", po_date := 0, vendor_name := "V",
                        item_id := "9", item_number := "N", item_name := "I" },
            ir := { ir_id := "IRA", ir_number := "RA", ir_date := 0,
                    ir_period_closed := false, ir_line_id := "a", ir_quantity := 1,
                    ir_rate := 10 },
            vb := { vb_id := "VBX", vb_number := "BX", vb_date := 0, vb_line_id := "x",
                    vb_quantity := 1, vb_rate := 30 } } : IRVB.Row),
          { po_line_id := "1",
            poInfo := { po_id := "1", po_number := "PO1", po_date := 0, vendor_name := "V",
                        item_id := "9", item_number := "N", item_name := "I" },
            ir := { ir_id := "IRB", ir_number := "RB", ir_date := 0,
                    ir_period_closed := false, ir_line_id := "b", ir_quantity := 1,
                    ir_rate := 20 },
            vb := { vb_id := "VBX", vb_number := "BX", vb_date := 0, vb_line_id := "x",
                    vb_quantity := 1, vb_rate := 30 } }]).Perm
       (IRVB.allPairs (1/100)
        [({ po_line_id := "1",
            poInfo := { po_id := "1", po_number := "PO1", po_date := 0, vendor_name := "V",
                        item_id := "9", item_number := "N", item_name := "I" },
            ir := { ir_id := "IRB", ir_number := "RB", ir_date := 0,
                    ir_period_closed := false, ir_line_id := "b", ir_quantity := 1,
                    ir_rate := 20 },
            vb := { vb_id := "VBX", vb_number := "BX", vb_date := 0, vb_line_id := "x",
                    vb_quantity := 1, vb_rate := 30 } } : IRVB.Row),
          { po_line_id := "1",
            poInfo := { po_id := "1", po_number := "PO1", po_date := 0, vendor_name := "V",
                        item_id := "9", item_number := "N", item_name := "I" },
            ir := { ir_id := "IRA", ir_number := "RA", ir_date := 0,
                    ir_period_closed := false, ir_line_id := "a", ir_quantity := 1,
                    ir_rate := 10 },
            vb := { vb_id := "VBX", vb_number := "BX", vb_date := 0, vb_line_id := "x",
                    vb_quantity := 1, vb_rate := 30 } }])) := by
  constructor
  · exact List.Perm.swap _ _ _
  · have e1 : IRVB.allPairs (1/100)
        [({ po_line_id := "1",
            poInfo := { po_id := "1", po_number := "PO1", po_date := 0, vendor_name := "V",
                        item_id := "9", item_number := "N", item_name := "I" },
            ir := { ir_id := "IRA", ir_number := "RA", ir_date := 0,
                    ir_period_closed := false, ir_line_id := "a", ir_quantity := 1,
                    ir_rate := 10 },
            vb := { vb_id := "VBX", vb_number := "BX", vb_date := 0, vb_line_id := "x",
                    vb_quantity := 1, vb_rate := 30 } } : IRVB.Row),
          { po_line_id := "1",
            poInfo := { po_id := "1", po_number := "PO1", po_date := 0, vendor_name := "V",
                        item_id := "9", item_number := "N", item_name := "I" },
            ir := { ir_id := "IRB", ir_number := "RB", ir_date := 0,
                    ir_period_closed := false, ir_line_id := "b", ir_quantity := 1,
                    ir_rate := 20 },
            vb := { vb_id := "VBX", vb_number := "BX", vb_date := 0, vb_line_id := "x",
                    vb_quantity := 1, vb_rate := 30 } }]
        = [{ poInfo := { po_id := "1", po_number := "PO1", po_date := 0, vendor_name := "V",
                         item_id := "9", item_number := "N", item_name := "I" },
             ir := { ir_id := "IRA", ir_number := "RA", ir_date := 0,
                     ir_period_closed := false, ir_line_id := "a", ir_quantity := 1,
                     ir_rate := 10 },
             vb := { vb_id := "VBX", vb_number := "BX", vb_date := 0, vb_line_id := "x",
                     vb_quantity := 1, vb_rate := 30 } }] := by
      norm_num [IRVB.allPairs, IRVB.createVariancePairs, IRVB.groupByPOLine,
        IRVB.insertRow, IRVB.addRow, IRVB.newGroup, IRVB.dedupAdd, IRVB.pairsForGroup,
        IRVB.sortIRs, IRVB.sortVBs, List.insertionSort, List.orderedInsert,
        IRVB.irDateLE, IRVB.vbDateLE, ratAbs, List.filterMap_cons, List.filterMap_nil]
    have e2 : IRVB.allPairs (1/100)
        [({ po_line_id := "1",
            poInfo := { po_id := "1", po_number := "PO1", po_date := 0, vendor_name := "V",
                        item_id := "9", item_number := "N", item_name := "I" },
            ir := { ir_id := "IRB", ir_number := "RB", ir_date := 0,
                    ir_period_closed := false, ir_line_id := "b", ir_quantity := 1,
                    ir_rate := 20 },
            vb := { vb_id := "VBX", vb_number := "BX", vb_date := 0, vb_line_id := "x",
                    vb_quantity := 1, vb_rate := 30 } } : IRVB.Row),
          { po_line_id := "1",
            poInfo := { po_id := "1", po_number := "PO1", po_date := 0, vendor_name := "V",
                        item_id := "9", item_number := "N", item_name := "I" },
            ir := { ir_id := "IRA", ir_number := "RA", ir_date := 0,
                    ir_period_closed := false, ir_line_id := "a", ir_quantity := 1,
                    ir_rate := 10 },
            vb := { vb_id := "VBX", vb_number := "BX", vb_date := 0, vb_line_id := "x",
                    vb_quantity := 1, vb_rate := 30 } }]
        = [{ poInfo := { po_id := "1", po_number := "PO1", po_date := 0, vendor_name := "V",
                         item_id := "9", item_number := "N", item_name := "I" },
             ir := { ir_id := "IRB", ir_number := "RB", ir_date := 0,
                     ir_period_closed := false, ir_line_id := "b", ir_quantity := 1,
                     ir_rate := 20 },
             vb := { vb_id := "VBX", vb_number := "BX", vb_date := 0, vb_line_id := "x",
                     vb_quantity := 1, vb_rate := 30 } }] := by
      norm_num [IRVB.allPairs, IRVB.createVariancePairs, IRVB.groupByPOLine,
        IRVB.insertRow, IRVB.addRow, IRVB.newGroup, IRVB.dedupAdd, IRVB.pairsForGroup,
        IRVB.sortIRs, IRVB.sortVBs, List.insertionSort, List.orderedInsert,
        IRVB.irDateLE, IRVB.vbDateLE, ratAbs, List.filterMap_cons, List.filterMap_nil]
    rw [e1, e2]
    intro h
    have h2 := List.perm_singleton.mp h
    simp at h2

/-- Witness for claim C8 at two permutations of two key-consistent rows
whose IR lines carry distinct dates: both orders emit the same pairs. -/
theorem c8_witness :
    ([({ po_line_id := "1",
         poInfo := { po_id := "1", po_number := "PO1", po_date := 0, vendor_name := "V",
                     item_id := "9", item_number := "N", item_name := "I" },
         ir := { ir_id := "IRA", ir_number := "RA", ir_date := 0, ir_period_closed := false,
                 ir_line_id := "a", ir_quantity := 1, ir_rate := 10 },
         vb := { vb_id := "VBX", vb_number := "BX", vb_date := 0, vb_line_id := "x",
                 vb_quantity := 1, vb_rate := 30 } } : IRVB.Row),
      { po_line_id := "1",
        poInfo := { po_id := "1", po_number := "PO1", po_date := 0, vendor_name := "V",
                    item_id := "9", item_number := "N", item_name := "I" },
        ir := { ir_id := "IRB", ir_number := "RB", ir_date := 1, ir_period_closed := false,
                ir_line_id := "b", ir_quantity := 1, ir_rate := 20 },
        vb := { vb_id := "VBX", vb_number := "BX", vb_date := 0, vb_line_id := "x",
                vb_quantity := 1, vb_rate := 30 } }].Perm
      [({ po_line_id := "1",
          poInfo := { po_id := "1", po_number := "PO1", po_date := 0, vendor_name := "V",
                      item_id := "9", item_number := "N", item_name := "I" },
          ir := { ir_id := "IRB", ir_number := "RB", ir_date := 1, ir_period_closed := false,
                  ir_line_id := "b", ir_quantity := 1, ir_rate := 20 },
          vb := { vb_id := "VBX", vb_number := "BX", vb_date := 0, vb_line_id := "x",
                  vb_quantity := 1, vb_rate := 30 } } : IRVB.Row),
       { po_line_id := "1",
         poInfo := { po_id := "1", po_number := "PO1", po_date := 0, vendor_name := "V",
                     item_id := "9", item_number := "N", item_name := "I" },
         ir := { ir_id := "IRA", ir_number := "RA", ir_date := 0, ir_period_closed := false,
                 ir_line_id := "a", ir_quantity := 1, ir_rate := 10 },
         vb := { vb_id := "VBX", vb_number := "BX", vb_date := 0, vb_line_id := "x",
                 vb_quantity := 1, vb_rate := 30 } }]) ∧
    (IRVB.allPairs (1/100)
      [({ po_line_id := "1",
          poInfo := { po_id := "1", po_number := "PO1", po_date := 0, vendor_name := "V",
                      item_id := "9", item_number := "N", item_name := "I" },
          ir := { ir_id := "IRA", ir_number := "RA", ir_date := 0, ir_period_closed := false,
                  ir_line_id := "a", ir_quantity := 1, ir_rate := 10 },
          vb := { vb_id := "VBX", vb_number := "BX", vb_date := 0, vb_line_id := "x",
                  vb_quantity := 1, vb_rate := 30 } } : IRVB.Row),
        { po_line_id := "1",
          poInfo := { po_id := "1", po_number := "PO1", po_date := 0, vendor_name := "V",
                      item_id := "9", item_number := "N", item_name := "I" },
          ir := { ir_id := "IRB", ir_number := "RB", ir_date := 1, ir_period_closed := false,
                  ir_line_id := "b", ir_quantity := 1, ir_rate := 20 },
          vb := { vb_id := "VBX", vb_number := "BX", vb_date := 0, vb_line_id := "x",
                  vb_quantity := 1, vb_rate := 30 } }]).Perm
     (IRVB.allPairs (1/100)
      [({ po_line_id := "1",
          poInfo := { po_id := "1", po_number := "PO1", po_date := 0, vendor_name := "V",
                      item_id := "9", item_number := "N", item_name := "I" },
          ir := { ir_id := "IRB", ir_number := "RB", ir_date := 1, ir_period_closed := false,
                  ir_line_id := "b", ir_quantity := 1, ir_rate := 20 },
          vb := { vb_id := "VBX", vb_number := "BX", vb_date := 0, vb_line_id := "x",
                  vb_quantity := 1, vb_rate := 30 } } : IRVB.Row),
        { po_line_id := "1",
          poInfo := { po_id := "1", po_number := "PO1", po_date := 0, vendor_name := "V",
                      item_id := "9", item_number := "N", item_name := "I" },
          ir := { ir_id := "IRA", ir_number := "RA", ir_date := 0, ir_period_closed := false,
                  ir_line_id := "a", ir_quantity := 1, ir_rate := 10 },
          vb := { vb_id := "VBX", vb_number := "BX", vb_date := 0, vb_line_id := "x",
                  vb_quantity := 1, vb_rate := 30 } }]) :=
  ⟨List.Perm.swap _ _ _,
   c8_order_independence (1/100) _ _ (List.Perm.swap _ _ _)
     (by decide) (by decide) (by decide) (by decide) (by decide)⟩
